import Mathlib

/-!
Verification of the cart → order checkout pipeline of the super_backend
e-commerce service (Flask + SQLAlchemy), shallowly embedded in Lean.

The database session is modelled as an explicit record of tables
(`DBState`); each SQLAlchemy repository call (which commits on its own)
becomes a pure function from state to state.  Python `Decimal` money is
modelled as `Rat` (Decimal arithmetic on these magnitudes is exact),
Python `int` quantities as `Int`, enum-as-string values as `String`,
`datetime` values as abstract `Nat` instants supplied by the caller, and
ORM rows as structures.  `Model.query.filter_by(...).first()` becomes
`List.find?`, and attribute mutation on a fetched row becomes an update
of the first matching row of the table (SQLAlchemy identity map).
Fallible service functions return the resulting state together with an
`Except` outcome: `.error` corresponds to a raised exception, and the
returned state is whatever had already been committed when it was
raised.
-/

deriving instance DecidableEq for Except

namespace SuperBackend

/-! ### Enumerations (app/enums.py) -/

namespace UserRole

def values : List String := ["admin", "customer", "manager", "cashier"]

def staff_roles : List String := ["admin", "manager", "cashier"]

def management_roles : List String := ["admin", "manager"]

end UserRole

namespace OrderStatus

def values : List String :=
  ["pending", "confirmed", "processing", "shipped", "delivered", "cancelled", "refunded"]

def is_valid (v : String) : Bool := v ∈ values

def active_statuses : List String :=
  ["pending", "confirmed", "processing", "shipped", "delivered"]

end OrderStatus

namespace PaymentStatus

def values : List String := ["pending", "paid", "failed", "refunded"]

def is_valid (v : String) : Bool := v ∈ values

end PaymentStatus

namespace PaymentMethod

def values : List String := ["credit_card", "debit_card", "paypal", "cash", "bank_transfer"]

def is_valid (v : String) : Bool := v ∈ values

end PaymentMethod

/-! ### Rows (app/models) — only the columns the checkout pipeline touches -/

structure Product where
  id : Nat
  name : String
  sku : String
  price : Rat
  stock_quantity : Int
  is_active : Bool
deriving Repr, DecidableEq

structure Cart where
  id : Nat
  customer_id : Nat
deriving Repr, DecidableEq

structure CartItem where
  cart_id : Nat
  product_id : Nat
  quantity : Int
deriving Repr, DecidableEq

structure OrderItem where
  order_id : Nat
  product_id : Nat
  product_name : String
  product_sku : String
  unit_price : Rat
  quantity : Int
deriving Repr, DecidableEq

structure Order where
  id : Nat
  order_number : String
  customer_id : Nat
  status : String
  payment_status : String
  subtotal : Rat
  tax : Rat
  shipping_cost : Rat
  total : Rat
  shipping_address_line1 : Option String
  shipping_address_line2 : Option String
  shipping_city : Option String
  shipping_state : Option String
  shipping_postal_code : Option String
  shipping_country : Option String
  payment_method : Option String
  customer_notes : Option String
  admin_notes : Option String
  confirmed_at : Option Nat
  shipped_at : Option Nat
  delivered_at : Option Nat
deriving Repr, DecidableEq

/-- The `shipping_address` dict passed to checkout; `.get(key)` on a dict
yields `None` for a missing key, hence every field is optional. -/
structure ShippingAddress where
  line1 : Option String
  line2 : Option String
  city : Option String
  state : Option String
  postal_code : Option String
  country : Option String
deriving Repr, DecidableEq

/-- The committed database: one list per table, plus the autoincrement
counter used when a new cart row is created. -/
structure DBState where
  products : List Product
  carts : List Cart
  cartItems : List CartItem
  orders : List Order
  orderItems : List OrderItem
  nextCartId : Nat
deriving Repr, DecidableEq

/-! ### Row-update helpers

SQLAlchemy mutates the single row object returned by
`query.filter_by(...).first()`; these helpers update the first matching
row of a table and leave the rest untouched. -/

def update_first_product_stock : List Product → Nat → Int → List Product
  | [], _, _ => []
  | p :: rest, pid, change =>
    if p.id = pid then { p with stock_quantity := p.stock_quantity + change } :: rest
    else p :: update_first_product_stock rest pid change

def set_first_product_stock : List Product → Nat → Int → List Product
  | [], _, _ => []
  | p :: rest, pid, v =>
    if p.id = pid then { p with stock_quantity := v } :: rest
    else p :: set_first_product_stock rest pid v

def set_first_product_name_price : List Product → Nat → String → Rat → List Product
  | [], _, _, _ => []
  | p :: rest, pid, n, pr =>
    if p.id = pid then { p with name := n, price := pr } :: rest
    else p :: set_first_product_name_price rest pid n pr

def update_first_cart_item_quantity : List CartItem → Nat → Nat → Int → List CartItem
  | [], _, _, _ => []
  | ci :: rest, cartId, pid, q =>
    if ci.cart_id = cartId ∧ ci.product_id = pid then { ci with quantity := ci.quantity + q } :: rest
    else ci :: update_first_cart_item_quantity rest cartId pid q

def update_first_order : List Order → Nat → (Order → Order) → List Order
  | [], _, _ => []
  | o :: rest, oid, f => if o.id = oid then f o :: rest else o :: update_first_order rest oid f

/-! ### Repositories (app/repositories) -/

namespace ProductRepository

/-- `ProductRepository.get_by_id` — `Product.query.get(product_id)`. -/
def get_by_id (s : DBState) (product_id : Nat) : Option Product :=
  s.products.find? (fun p => p.id = product_id)

/-- `ProductRepository.update_stock` — `product.stock_quantity += quantity_change`
followed by a commit.  Note: no floor-at-zero check of any kind. -/
def update_stock (s : DBState) (product_id : Nat) (quantity_change : Int) : DBState :=
  { s with products := update_first_product_stock s.products product_id quantity_change }

/-- `ProductRepository.update(product, stock_quantity=new_stock)` as used by
`ProductService.update_stock`: plain field assignment, then commit. -/
def update_stock_quantity_field (s : DBState) (product_id : Nat) (new_stock : Int) : DBState :=
  { s with products := set_first_product_stock s.products product_id new_stock }

/-- `ProductRepository.update(product, name=..., price=...)` as used by
`ProductService.update_product` when mutating name and price. -/
def update_name_price (s : DBState) (product_id : Nat) (n : String) (pr : Rat) : DBState :=
  { s with products := set_first_product_name_price s.products product_id n pr }

end ProductRepository

namespace CartRepository

/-- `Cart.query.filter_by(customer_id=...).first()`. -/
def get_by_customer_id (s : DBState) (customer_id : Nat) : Option Cart :=
  s.carts.find? (fun c => c.customer_id = customer_id)

/-- `CartRepository.create` — inserts and commits a new cart row. -/
def create (s : DBState) (customer_id : Nat) : DBState × Cart :=
  let c : Cart := ⟨s.nextCartId, customer_id⟩
  ({ s with carts := s.carts ++ [c], nextCartId := s.nextCartId + 1 }, c)

/-- `CartRepository.get_or_create`. -/
def get_or_create (s : DBState) (customer_id : Nat) : DBState × Cart :=
  match get_by_customer_id s customer_id with
  | some c => (s, c)
  | none => create s customer_id

/-- `CartItem.query.filter_by(cart_id=..., product_id=...).first()`. -/
def get_cart_item (s : DBState) (cart_id product_id : Nat) : Option CartItem :=
  s.cartItems.find? (fun ci => ci.cart_id = cart_id ∧ ci.product_id = product_id)

/-- `CartRepository.add_item` — increments the existing line or inserts a
new one, then commits. -/
def add_item (s : DBState) (cart : Cart) (product_id : Nat) (quantity : Int) : DBState :=
  match get_cart_item s cart.id product_id with
  | some _ =>
    { s with cartItems := update_first_cart_item_quantity s.cartItems cart.id product_id quantity }
  | none => { s with cartItems := s.cartItems ++ [⟨cart.id, product_id, quantity⟩] }

/-- `CartRepository.clear_cart` — deletes every line of the cart, keeps the
cart row. -/
def clear_cart (s : DBState) (cart : Cart) : DBState :=
  { s with cartItems := s.cartItems.filter (fun ci => ¬ ci.cart_id = cart.id) }

end CartRepository

/-- The line items of a cart (the `cart.items` relationship). -/
def cart_items_of (s : DBState) (cart : Cart) : List CartItem :=
  s.cartItems.filter (fun ci => ci.cart_id = cart.id)

/-- The line items of an order (the `order.items` relationship). -/
def order_items_of (s : DBState) (o : Order) : List OrderItem :=
  s.orderItems.filter (fun oi => oi.order_id = o.id)

namespace OrderRepository

/-- `Order.query.get(order_id)`. -/
def get_by_id (s : DBState) (order_id : Nat) : Option Order :=
  s.orders.find? (fun o => o.id = order_id)

/-- `OrderRepository.add_item` — inserts an OrderItem whose
name/sku/price are copied from the product row at this instant. -/
def add_item (s : DBState) (o : Order) (p : Product) (quantity : Int) : DBState :=
  { s with orderItems := s.orderItems ++ [⟨o.id, p.id, p.name, p.sku, p.price, quantity⟩] }

/-- The row-level effect of `OrderRepository.update_status`: assign the
status, then stamp the matching timestamp only when it is not already
set (`not order.confirmed_at` — `None` is falsy, a datetime is truthy). -/
def apply_status (o : Order) (status : String) (now : Nat) : Order :=
  let o1 := { o with status := status }
  if status = "confirmed" ∧ o1.confirmed_at.isNone then { o1 with confirmed_at := some now }
  else if status = "shipped" ∧ o1.shipped_at.isNone then { o1 with shipped_at := some now }
  else if status = "delivered" ∧ o1.delivered_at.isNone then { o1 with delivered_at := some now }
  else o1

/-- `OrderRepository.update_status` — mutates the fetched order row and
commits. -/
def update_status (s : DBState) (order_id : Nat) (status : String) (now : Nat) : DBState :=
  { s with orders := update_first_order s.orders order_id (fun o => apply_status o status now) }

/-- `OrderRepository.update_payment_status`. -/
def update_payment_status (s : DBState) (order_id : Nat) (payment_status : String) : DBState :=
  { s with orders :=
      update_first_order s.orders order_id (fun o => { o with payment_status := payment_status }) }

/-- `OrderRepository.update(order, admin_notes=...)`. -/
def update_admin_notes (s : DBState) (order_id : Nat) (notes : String) : DBState :=
  { s with orders :=
      update_first_order s.orders order_id (fun o => { o with admin_notes := some notes }) }

end OrderRepository

/-! ### Cart service (app/services/cart_service.py) -/

namespace CartService

/-- `CartService.add_to_cart`.  On `.error` the returned state is what was
committed before the exception (the `get_or_create` cart commit survives
the `db.session.rollback()`; every other write happens only on the
success path). -/
def add_to_cart (s : DBState) (customer_id product_id : Nat) (quantity : Int) :
    DBState × Except String Unit :=
  if quantity < 1 then (s, .error "Quantity must be at least 1")
  else if quantity > 100 then (s, .error "Maximum quantity per item is 100")
  else
    match ProductRepository.get_by_id s product_id with
    | none => (s, .error "Product not found")
    | some product =>
      if ¬ product.is_active then (s, .error "Product is not available")
      else if product.stock_quantity < quantity then
        (s, .error "Only so many item(s) available in stock")
      else
        let sc := CartRepository.get_or_create s customer_id
        match CartRepository.get_cart_item sc.1 sc.2.id product_id with
        | some existing_item =>
          let new_quantity := existing_item.quantity + quantity
          if new_quantity > product.stock_quantity then
            (sc.1, .error "Cannot add: would exceed stock")
          else if new_quantity > 100 then (sc.1, .error "Maximum 100 items per product")
          else (CartRepository.add_item sc.1 sc.2 product_id quantity, .ok ())
        | none => (CartRepository.add_item sc.1 sc.2 product_id quantity, .ok ())

end CartService

/-! ### Product service stock primitive (app/services/product_service.py) -/

namespace ProductService

/-- `ProductService.update_stock(product_id, quantity_change, operation)` —
the adjustStock primitive: add is unconditional, subtract and set are
floored at zero, the final write is a plain field assignment through
`ProductRepository.update`. -/
def update_stock (s : DBState) (product_id : Nat) (quantity_change : Int)
    (operation : String) : DBState × Except String Unit :=
  match ProductRepository.get_by_id s product_id with
  | none => (s, .error "Product not found")
  | some product =>
    let old_stock := product.stock_quantity
    if operation = "add" then
      (ProductRepository.update_stock_quantity_field s product_id (old_stock + quantity_change),
       .ok ())
    else if operation = "subtract" then
      if old_stock - quantity_change < 0 then (s, .error "Insufficient stock")
      else
        (ProductRepository.update_stock_quantity_field s product_id (old_stock - quantity_change),
         .ok ())
    else if operation = "set" then
      if quantity_change < 0 then (s, .error "Stock quantity cannot be negative")
      else (ProductRepository.update_stock_quantity_field s product_id quantity_change, .ok ())
    else (s, .error "Invalid operation")

end ProductService

/-! ### Order service (app/services/order_service.py) -/

namespace OrderService

/-- The stock re-validation loop of `create_order_from_cart`:
`item.product.stock_quantity < item.quantity` raises InsufficientStock;
a dangling `item.product` (None) raises AttributeError.  Note there is
no `is_active` check here. -/
def validate_items_stock (s : DBState) : List CartItem → Except String Unit
  | [] => .ok ()
  | ci :: rest =>
    match ProductRepository.get_by_id s ci.product_id with
    | none => .error "AttributeError: item.product is None"
    | some p =>
      if p.stock_quantity < ci.quantity then .error ("Insufficient stock for " ++ p.name)
      else validate_items_stock s rest

/-- `Cart.subtotal` — `sum(item.product.price * item.quantity for item in items)`. -/
def cart_lines_subtotal (s : DBState) : List CartItem → Option Rat
  | [] => some 0
  | ci :: rest =>
    match ProductRepository.get_by_id s ci.product_id, cart_lines_subtotal s rest with
    | some p, some r => some (p.price * ci.quantity + r)
    | _, _ => none

/-- The per-line loop of `create_order_from_cart`:
`OrderRepository.add_item(order, item.product, item.quantity)` then
`ProductRepository.update_stock(item.product, -item.quantity)`, each call
committing on its own.  The `Bool` is `false` when `item.product`
dereferences to None (AttributeError), with the state at that point. -/
def process_order_items (oid : Nat) (st : DBState) : List CartItem → DBState × Bool
  | [] => (st, true)
  | ci :: rest =>
    match ProductRepository.get_by_id st ci.product_id with
    | none => (st, false)
    | some p =>
      let st1 := { st with orderItems :=
        st.orderItems ++ [⟨oid, ci.product_id, p.name, p.sku, p.price, ci.quantity⟩] }
      let st2 := ProductRepository.update_stock st1 ci.product_id (-ci.quantity)
      process_order_items oid st2 rest

/-- `payment_method and not PaymentMethod.is_valid(payment_method)` —
`None` and the empty string are falsy, so they skip validation. -/
def invalid_payment_method (pm : Option String) : Bool :=
  match pm with
  | none => false
  | some p => p ≠ "" ∧ ¬ PaymentMethod.is_valid p

/-- The Order row assembled by `create_order_from_cart` (lines 30–57 of
the service): `tax = subtotal * Decimal('0.1')`,
`shipping_cost = Decimal('10.00')`, `total = subtotal + tax +
shipping_cost`, status and payment status pending, the shipping-address
fields copied verbatim from the input dict. -/
def checkout_order (customer_id : Nat) (shipping_address : ShippingAddress)
    (payment_method customer_notes : Option String) (order_number : String)
    (order_id : Nat) (subtotal : Rat) : Order :=
  let tax := subtotal * (1 / 10 : Rat)
  let shipping_cost := (10 : Rat)
  let total := subtotal + tax + shipping_cost
  { id := order_id, order_number := order_number, customer_id := customer_id,
    status := "pending", payment_status := "pending",
    subtotal := subtotal, tax := tax, shipping_cost := shipping_cost, total := total,
    shipping_address_line1 := shipping_address.line1,
    shipping_address_line2 := shipping_address.line2,
    shipping_city := shipping_address.city,
    shipping_state := shipping_address.state,
    shipping_postal_code := shipping_address.postal_code,
    shipping_country := shipping_address.country,
    payment_method := payment_method, customer_notes := customer_notes,
    admin_notes := none,
    confirmed_at := none, shipped_at := none, delivered_at := none }

/-- `OrderService.create_order_from_cart`.  The generated
`uuid`-based `order_number` and the autoincrement `order_id` are inputs.
Every repository call inside commits separately; in this fault-free
model the only failure paths (invalid payment method, empty cart,
insufficient stock, dangling product) are modelled exactly where the
source raises. -/
def create_order_from_cart (s : DBState) (customer_id : Nat)
    (shipping_address : ShippingAddress) (payment_method : Option String)
    (customer_notes : Option String) (order_number : String) (order_id : Nat) :
    DBState × Except String Order :=
  if invalid_payment_method payment_method then (s, .error "Invalid payment method") else
  match CartRepository.get_by_customer_id s customer_id with
  | none => (s, .error "Cart is empty")
  | some cart =>
    let items := cart_items_of s cart
    if items.length = 0 then (s, .error "Cart is empty") else
    match validate_items_stock s items with
    | .error e => (s, .error e)
    | .ok _ =>
      match cart_lines_subtotal s items with
      | none => (s, .error "AttributeError: item.product is None")
      | some subtotal =>
        let order := checkout_order customer_id shipping_address payment_method
          customer_notes order_number order_id subtotal
        let s1 : DBState := { s with orders := s.orders ++ [order] }
        let r := process_order_items order.id s1 items
        if r.2 then (CartRepository.clear_cart r.1 cart, .ok order)
        else (r.1, .error "AttributeError: item.product is None")

/-- The stock-restoration loop of `update_order_status` / `cancel_order`:
`ProductRepository.update_stock(item.product, item.quantity)` per line,
each commit standing alone; `false` when `item.product` is None
(AttributeError), with the partially-restored state at that point. -/
def restore_items_stock (st : DBState) : List OrderItem → DBState × Bool
  | [] => (st, true)
  | oi :: rest =>
    match ProductRepository.get_by_id st oi.product_id with
    | none => (st, false)
    | some _ => restore_items_stock (ProductRepository.update_stock st oi.product_id oi.quantity) rest

/-- `OrderService.update_order_status`.  Restores stock when the target is
`cancelled` and the order is not already cancelled/refunded, and when the
target is `refunded` and the order is not already cancelled — note the
refund guard does not exclude an already-refunded order. -/
def update_order_status (s : DBState) (order_id : Nat) (status : String) (now : Nat) :
    DBState × Except String Order :=
  if ¬ OrderStatus.is_valid status then (s, .error "Invalid status") else
  match OrderRepository.get_by_id s order_id with
  | none => (s, .error "Order not found")
  | some order =>
    let items := order_items_of s order
    let r1 :=
      if status = "cancelled" ∧ ¬ (order.status = "cancelled" ∨ order.status = "refunded") then
        restore_items_stock s items
      else (s, true)
    if ¬ r1.2 then (r1.1, .error "AttributeError: item.product is None") else
    let r2 :=
      if status = "refunded" ∧ ¬ order.status = "cancelled" then restore_items_stock r1.1 items
      else (r1.1, true)
    if ¬ r2.2 then (r2.1, .error "AttributeError: item.product is None") else
    (OrderRepository.update_status r2.1 order_id status now,
     .ok (OrderRepository.apply_status order status now))

/-- `OrderService.update_payment_status`. -/
def update_payment_status (s : DBState) (order_id : Nat) (payment_status : String) :
    DBState × Except String Order :=
  if ¬ PaymentStatus.is_valid payment_status then (s, .error "Invalid payment status") else
  match OrderRepository.get_by_id s order_id with
  | none => (s, .error "Order not found")
  | some order =>
    (OrderRepository.update_payment_status s order_id payment_status,
     .ok { order with payment_status := payment_status })

/-! #### Persistence-fault model of checkout

Each repository call inside `create_order_from_cart` issues its own
`db.session.commit()`.  `faultAt` names the first commit of the run that
fails (commits are numbered in execution order: 0 the Order insert, then
for the i-th line 2i+1 the OrderItem insert and 2i+2 the stock write,
and finally the cart clear).  A failing commit discards only its own
pending writes (session rollback) and raises; everything committed
before it stays, exactly as in the source, which has no surrounding
transaction and no compensation logic. -/

def process_order_items_fault (oid faultAt : Nat) (k : Nat) (st : DBState) :
    List CartItem → DBState × Nat × Bool
  | [] => (st, k, true)
  | ci :: rest =>
    match ProductRepository.get_by_id st ci.product_id with
    | none => (st, k, false)
    | some p =>
      if k = faultAt then (st, k, false)
      else
        let st1 := { st with orderItems :=
          st.orderItems ++ [⟨oid, ci.product_id, p.name, p.sku, p.price, ci.quantity⟩] }
        if k + 1 = faultAt then (st1, k + 1, false)
        else
          process_order_items_fault oid faultAt (k + 2)
            (ProductRepository.update_stock st1 ci.product_id (-ci.quantity)) rest

/-- `create_order_from_cart` under the commit-fault model above. -/
def create_order_from_cart_fault (faultAt : Nat) (s : DBState) (customer_id : Nat)
    (shipping_address : ShippingAddress) (payment_method : Option String)
    (customer_notes : Option String) (order_number : String) (order_id : Nat) :
    DBState × Except String Order :=
  if invalid_payment_method payment_method then (s, .error "Invalid payment method") else
  match CartRepository.get_by_customer_id s customer_id with
  | none => (s, .error "Cart is empty")
  | some cart =>
    let items := cart_items_of s cart
    if items.length = 0 then (s, .error "Cart is empty") else
    match validate_items_stock s items with
    | .error e => (s, .error e)
    | .ok _ =>
      match cart_lines_subtotal s items with
      | none => (s, .error "AttributeError: item.product is None")
      | some subtotal =>
        let order := checkout_order customer_id shipping_address payment_method
          customer_notes order_number order_id subtotal
        if 0 = faultAt then (s, .error "DatabaseError") else
        let s1 : DBState := { s with orders := s.orders ++ [order] }
        let r := process_order_items_fault order.id faultAt 1 s1 items
        if r.2.2 then
          if r.2.1 = faultAt then (r.1, .error "DatabaseError")
          else (CartRepository.clear_cart r.1 cart, .ok order)
        else (r.1, .error "DatabaseError")

end OrderService

/-! ### Order routes (app/routes/order_routes.py) — the role-gated
status-changing staff endpoints.  JWT plumbing is out of scope: the
authenticated role string is an input.  `ValueError` from the service
surfaces as 400 and an unexpected exception as 500; both are collapsed
into `.err` here, `.forbidden` is the 403 of the role checks and of the
`@staff_required` / `@admin_only` decorators. -/

inductive HttpStatus where
  | ok
  | err
  | forbidden
  | badRequest
deriving Repr, DecidableEq

namespace OrderRoutes

/-- `PUT /api/orders/:id/status` (`update_order_status` route). -/
def update_order_status_route (role : String) (s : DBState) (order_id : Nat)
    (body_status : Option String) (now : Nat) : DBState × HttpStatus :=
  if ¬ role ∈ UserRole.staff_roles then (s, .forbidden) else
  match body_status with
  | none => (s, .badRequest)
  | some status =>
    if status = "" then (s, .badRequest) else
    if ¬ OrderStatus.is_valid status then (s, .badRequest) else
    if role = "cashier" ∧ ¬ (status = "confirmed" ∨ status = "processing") then (s, .forbidden)
    else if role = "manager" ∧ status = "refunded" then (s, .forbidden)
    else
      let r := OrderService.update_order_status s order_id status now
      match r.2 with
      | .ok _ => (r.1, .ok)
      | .error _ => (r.1, .err)

/-- `POST /api/orders/:id/ship` (`mark_as_shipped` route, without the
optional tracking-number update, which touches no claimed field).  Note:
no role check beyond `@staff_required`. -/
def mark_as_shipped_route (role : String) (s : DBState) (order_id : Nat) (now : Nat) :
    DBState × HttpStatus :=
  if ¬ role ∈ UserRole.staff_roles then (s, .forbidden) else
  let r := OrderService.update_order_status s order_id "shipped" now
  match r.2 with
  | .ok _ => (r.1, .ok)
  | .error _ => (r.1, .err)

/-- `PUT /api/orders/:id/payment-status` (`update_payment_status` route). -/
def update_payment_status_route (role : String) (s : DBState) (order_id : Nat)
    (body_payment_status : Option String) : DBState × HttpStatus :=
  if ¬ role ∈ UserRole.staff_roles then (s, .forbidden) else
  match body_payment_status with
  | none => (s, .badRequest)
  | some payment_status =>
    if payment_status = "" then (s, .badRequest) else
    if ¬ PaymentStatus.is_valid payment_status then (s, .badRequest) else
    if payment_status = "refunded" ∧ ¬ role = "admin" then (s, .forbidden)
    else
      let r := OrderService.update_payment_status s order_id payment_status
      match r.2 with
      | .ok _ => (r.1, .ok)
      | .error _ => (r.1, .err)

/-- `POST /api/orders/:id/refund` (`process_refund` route, `@admin_only`):
sets order status refunded, then payment status refunded, then overwrites
the admin notes. -/
def process_refund_route (role : String) (s : DBState) (order_id : Nat)
    (notes : String) (now : Nat) : DBState × HttpStatus :=
  if ¬ role = "admin" then (s, .forbidden) else
  let r := OrderService.update_order_status s order_id "refunded" now
  match r.2 with
  | .error _ => (r.1, .err)
  | .ok o =>
    let r2 := OrderService.update_payment_status r.1 order_id "refunded"
    match r2.2 with
    | .error _ => (r2.1, .err)
    | .ok _ => (OrderRepository.update_admin_notes r2.1 o.id notes, .ok)

end OrderRoutes

/-! ### Invariants and derived notions used in the statements -/

/-- Every product row has non-negative stock. -/
def stock_nonneg (s : DBState) : Prop := ∀ p ∈ s.products, 0 ≤ p.stock_quantity

/-- The `unique_cart_product` constraint of the cart_items table: at most
one line per (cart, product) pair. -/
def cart_pairs_nodup (s : DBState) : Prop :=
  (s.cartItems.map (fun ci => (ci.cart_id, ci.product_id))).Nodup

/-- The OrderItem snapshots that `create_order_from_cart` writes for a
list of cart lines, read off the given (pre-checkout) products table:
one item per line with name/sku/price copied from the product row. -/
def snapshot_items (ps : List Product) (oid : Nat) : List CartItem → List OrderItem
  | [] => []
  | ci :: rest =>
    match ps.find? (fun p => p.id = ci.product_id) with
    | none => []
    | some p =>
      ⟨oid, ci.product_id, p.name, p.sku, p.price, ci.quantity⟩ :: snapshot_items ps oid rest

/-- One service call of the sequences quantified over by the stock
invariant: add-to-cart, checkout, or the adjustStock primitive. -/
inductive Op where
  | addItem (customer_id product_id : Nat) (quantity : Int)
  | checkout (customer_id : Nat) (addr : ShippingAddress)
      (payment_method customer_notes : Option String) (order_number : String) (order_id : Nat)
  | adjustStock (product_id : Nat) (quantity_change : Int) (operation : String)
deriving Repr

/-- The state left behind by one call (also when the call raises). -/
def apply_op (s : DBState) : Op → DBState
  | .addItem cid pid q => (CartService.add_to_cart s cid pid q).1
  | .checkout cid addr pm notes onum oid =>
    (OrderService.create_order_from_cart s cid addr pm notes onum oid).1
  | .adjustStock pid c operation => (ProductService.update_stock s pid c operation).1

/-- An adjustStock call in add mode does not smuggle in a negative delta
(subtract and set modes carry their own floor checks). -/
def op_add_nonneg : Op → Prop
  | .adjustStock _ c operation => operation = "add" → 0 ≤ c
  | _ => True

/-! ### Concrete example rows and states for witnesses and
counterexamples -/

def addr0 : ShippingAddress :=
  ⟨some "1 Main St", none, some "Springfield", some "IL", some "62701", some "US"⟩

def prodA : Product := ⟨1, "Widget", "SKU-A", 10, 5, true⟩

def prodB : Product := ⟨2, "Gadget", "SKU-B", 5, 7, true⟩

/-- Two-line cart over two in-stock products (prices 10.00 and 5.00,
quantities 2 and 1). -/
def sCart2 : DBState :=
  { products := [prodA, prodB], carts := [⟨1, 1⟩],
    cartItems := [⟨1, 1, 2⟩, ⟨1, 2, 1⟩], orders := [], orderItems := [], nextCartId := 2 }

/-- A cart holding qty 2 of an inactive product that still has stock 5. -/
def sInactive : DBState :=
  { products := [⟨1, "Retired", "SKU-R", 10, 5, false⟩], carts := [⟨1, 1⟩],
    cartItems := [⟨1, 1, 2⟩], orders := [], orderItems := [], nextCartId := 2 }

/-- A cart asking for qty 2 of a product with stock 1. -/
def sShort : DBState :=
  { products := [⟨1, "Widget", "SKU-A", 10, 1, true⟩], carts := [⟨1, 1⟩],
    cartItems := [⟨1, 1, 2⟩], orders := [], orderItems := [], nextCartId := 2 }

/-- An order row in the given status over product 1 (stock 5), with one
line of quantity 2. -/
def orderWith (status payment_status : String) : Order :=
  { id := 1, order_number := "ORD-1", customer_id := 1, status := status,
    payment_status := payment_status, subtotal := 20, tax := 2, shipping_cost := 10, total := 32,
    shipping_address_line1 := some "1 Main St", shipping_address_line2 := none,
    shipping_city := some "Springfield", shipping_state := some "IL",
    shipping_postal_code := some "62701", shipping_country := some "US",
    payment_method := none, customer_notes := none, admin_notes := none,
    confirmed_at := none, shipped_at := none, delivered_at := none }

def sOrder (status : String) : DBState :=
  { products := [prodA], carts := [], cartItems := [],
    orders := [orderWith status "paid"], orderItems := [⟨1, 1, "Widget", "SKU-A", 10, 2⟩],
    nextCartId := 1 }

/-- A single product with zero stock, no cart, no orders. -/
def sStock0 : DBState :=
  { products := [⟨1, "Widget", "SKU-A", 10, 0, true⟩], carts := [], cartItems := [],
    orders := [], orderItems := [], nextCartId := 1 }

/-- An order already confirmed at instant 5. -/
def orderStamped : Order := { orderWith "confirmed" "paid" with confirmed_at := some 5 }

/-! ### Helper lemmas about first-match table updates -/

section Lemmas

lemma find?_update_first_product_stock_proj (ps : List Product) (pid' : Nat) (c : Int)
    (pid : Nat) :
    ((update_first_product_stock ps pid' c).find? (fun p => p.id = pid)).map
        (fun p => (p.id, p.name, p.sku, p.price)) =
      (ps.find? (fun p => p.id = pid)).map (fun p => (p.id, p.name, p.sku, p.price)) := by
  induction ps with
  | nil => rfl
  | cons p rest ih =>
    by_cases h : p.id = pid'
    · have hid : ({ p with stock_quantity := p.stock_quantity + c } : Product).id = p.id := rfl
      by_cases h2 : p.id = pid
      · rw [update_first_product_stock, if_pos h]
        rw [List.find?_cons_of_pos _ (by simp [hid, h2]), List.find?_cons_of_pos _ (by simp [h2])]
        rfl
      · rw [update_first_product_stock, if_pos h]
        rw [List.find?_cons_of_neg _ (by simp [hid, h2]), List.find?_cons_of_neg _ (by simp [h2])]
    · by_cases h2 : p.id = pid
      · rw [update_first_product_stock, if_neg h]
        rw [List.find?_cons_of_pos _ (by simp [h2]), List.find?_cons_of_pos _ (by simp [h2])]
      · rw [update_first_product_stock, if_neg h]
        rw [List.find?_cons_of_neg _ (by simp [h2]), List.find?_cons_of_neg _ (by simp [h2]), ih]

lemma find?_update_first_product_stock_isSome (ps : List Product) (pid' : Nat) (c : Int)
    (pid : Nat) :
    ((update_first_product_stock ps pid' c).find? (fun p => p.id = pid)).isSome =
      (ps.find? (fun p => p.id = pid)).isSome := by
  have h := find?_update_first_product_stock_proj ps pid' c pid
  cases h1 : (update_first_product_stock ps pid' c).find? (fun p => p.id = pid) <;>
    cases h2 : ps.find? (fun p => p.id = pid) <;> simp [h1, h2] at h ⊢

lemma find?_update_first_product_stock_ne (ps : List Product) (pid' : Nat) (c : Int)
    (pid : Nat) (hne : pid ≠ pid') :
    (update_first_product_stock ps pid' c).find? (fun p => p.id = pid) =
      ps.find? (fun p => p.id = pid) := by
  induction ps with
  | nil => rfl
  | cons p rest ih =>
    by_cases h : p.id = pid'
    · have h2 : ¬ p.id = pid := by
        intro hc; exact hne (hc ▸ h)
      have hid : ({ p with stock_quantity := p.stock_quantity + c } : Product).id = p.id := rfl
      rw [update_first_product_stock, if_pos h]
      rw [List.find?_cons_of_neg _ (by simp [hid, h2]), List.find?_cons_of_neg _ (by simp [h2])]
    · by_cases h2 : p.id = pid
      · rw [update_first_product_stock, if_neg h]
        rw [List.find?_cons_of_pos _ (by simp [h2]), List.find?_cons_of_pos _ (by simp [h2])]
      · rw [update_first_product_stock, if_neg h]
        rw [List.find?_cons_of_neg _ (by simp [h2]), List.find?_cons_of_neg _ (by simp [h2]), ih]

lemma find?_update_first_product_stock_eq (ps : List Product) (pid : Nat) (c : Int)
    (p : Product) (hfind : ps.find? (fun q => q.id = pid) = some p) :
    (update_first_product_stock ps pid c).find? (fun q => q.id = pid) =
      some { p with stock_quantity := p.stock_quantity + c } := by
  induction ps with
  | nil => simp [List.find?] at hfind
  | cons q rest ih =>
    by_cases h : q.id = pid
    · rw [List.find?_cons_of_pos _ (by simp [h])] at hfind
      have hq : q = p := by injection hfind
      subst hq
      have hid : ({ q with stock_quantity := q.stock_quantity + c } : Product).id = q.id := rfl
      rw [update_first_product_stock, if_pos h]
      rw [List.find?_cons_of_pos _ (by simp [hid, h])]
    · rw [List.find?_cons_of_neg _ (by simp [h])] at hfind
      rw [update_first_product_stock, if_neg h]
      rw [List.find?_cons_of_neg _ (by simp [h]), ih hfind]

lemma inv_update_first_product_stock (ps : List Product) (pid : Nat) (c : Int)
    (hinv : ∀ p ∈ ps, 0 ≤ p.stock_quantity)
    (hbound : ∀ p, ps.find? (fun q => q.id = pid) = some p → 0 ≤ p.stock_quantity + c) :
    ∀ q ∈ update_first_product_stock ps pid c, 0 ≤ q.stock_quantity := by
  induction ps with
  | nil => intro q hq; simp [update_first_product_stock] at hq
  | cons p rest ih =>
    intro q hq
    by_cases h : p.id = pid
    · simp [update_first_product_stock, h] at hq
      rcases hq with hq | hq
      · subst hq
        exact hbound p (by simp [List.find?, h])
      · exact hinv q (List.mem_cons_of_mem _ hq)
    · simp only [update_first_product_stock, if_neg h] at hq
      rcases List.mem_cons.mp hq with hq | hq
      · subst hq; exact hinv q (List.mem_cons_self _ _)
      · exact ih (fun r hr => hinv r (List.mem_cons_of_mem _ hr))
          (fun r hr => hbound r (by simp [List.find?, h, hr])) q hq

lemma inv_set_first_product_stock (ps : List Product) (pid : Nat) (v : Int)
    (hinv : ∀ p ∈ ps, 0 ≤ p.stock_quantity) (hv : 0 ≤ v) :
    ∀ q ∈ set_first_product_stock ps pid v, 0 ≤ q.stock_quantity := by
  induction ps with
  | nil => intro q hq; simp [set_first_product_stock] at hq
  | cons p rest ih =>
    intro q hq
    by_cases h : p.id = pid
    · simp [set_first_product_stock, h] at hq
      rcases hq with hq | hq
      · subst hq; exact hv
      · exact hinv q (List.mem_cons_of_mem _ hq)
    · simp only [set_first_product_stock, if_neg h] at hq
      rcases List.mem_cons.mp hq with hq | hq
      · subst hq; exact hinv q (List.mem_cons_self _ _)
      · exact ih (fun r hr => hinv r (List.mem_cons_of_mem _ hr)) q hq

lemma validate_items_stock_ok (s : DBState) (l : List CartItem)
    (h : OrderService.validate_items_stock s l = .ok ()) :
    ∀ ci ∈ l, ∃ p, ProductRepository.get_by_id s ci.product_id = some p ∧
      ci.quantity ≤ p.stock_quantity := by
  induction l with
  | nil => intro ci hci; simp at hci
  | cons ci rest ih =>
    intro ci' hci'
    cases hp : ProductRepository.get_by_id s ci.product_id with
    | none => rw [OrderService.validate_items_stock, hp] at h; simp at h
    | some p =>
      have h' : (if p.stock_quantity < ci.quantity then
          (Except.error ("Insufficient stock for " ++ p.name) : Except String Unit)
          else OrderService.validate_items_stock s rest) = Except.ok () := by
        rw [OrderService.validate_items_stock, hp] at h; exact h
      by_cases hlt : p.stock_quantity < ci.quantity
      · rw [if_pos hlt] at h'; simp at h'
      · rw [if_neg hlt] at h'
        rcases List.mem_cons.mp hci' with hc | hc
        · subst hc; exact ⟨p, hp, le_of_not_gt hlt⟩
        · exact ih h' ci' hc

lemma cart_lines_subtotal_isSome (s : DBState) (l : List CartItem)
    (hpres : ∀ ci ∈ l, (ProductRepository.get_by_id s ci.product_id).isSome) :
    (OrderService.cart_lines_subtotal s l).isSome := by
  induction l with
  | nil => simp [OrderService.cart_lines_subtotal]
  | cons ci rest ih =>
    have h1 := hpres ci (List.mem_cons_self _ _)
    cases hp : ProductRepository.get_by_id s ci.product_id with
    | none => rw [hp] at h1; simp at h1
    | some p =>
      have h2 := ih (fun x hx => hpres x (List.mem_cons_of_mem _ hx))
      cases hr : OrderService.cart_lines_subtotal s rest with
      | none => rw [hr] at h2; simp at h2
      | some r => rw [OrderService.cart_lines_subtotal, hp, hr]; rfl

lemma snapshot_items_update_stock (ps : List Product) (pid : Nat) (c : Int) (oid : Nat)
    (l : List CartItem) :
    snapshot_items (update_first_product_stock ps pid c) oid l = snapshot_items ps oid l := by
  induction l with
  | nil => rfl
  | cons ci rest ih =>
    have hproj := find?_update_first_product_stock_proj ps pid c ci.product_id
    cases h1 : (update_first_product_stock ps pid c).find? (fun p => p.id = ci.product_id) with
    | none =>
      cases h2 : ps.find? (fun p => p.id = ci.product_id) with
      | none => rw [snapshot_items, snapshot_items, h1, h2]
      | some q =>
        have hs := find?_update_first_product_stock_isSome ps pid c ci.product_id
        rw [h1, h2] at hs; simp at hs
    | some q =>
      cases h2 : ps.find? (fun p => p.id = ci.product_id) with
      | none =>
        have hs := find?_update_first_product_stock_isSome ps pid c ci.product_id
        rw [h1, h2] at hs; simp at hs
      | some q' =>
        rw [h1, h2] at hproj
        simp only [Option.map_some', Option.some.injEq, Prod.mk.injEq] at hproj
        rw [snapshot_items, snapshot_items, h1, h2]
        simp [ih, hproj.2.1, hproj.2.2.1, hproj.2.2.2]

lemma process_order_items_spec (oid : Nat) (st : DBState) (l : List CartItem)
    (hpres : ∀ ci ∈ l, (ProductRepository.get_by_id st ci.product_id).isSome) :
    (OrderService.process_order_items oid st l).2 = true ∧
    (OrderService.process_order_items oid st l).1.orders = st.orders ∧
    (OrderService.process_order_items oid st l).1.carts = st.carts ∧
    (OrderService.process_order_items oid st l).1.cartItems = st.cartItems ∧
    (OrderService.process_order_items oid st l).1.nextCartId = st.nextCartId ∧
    (OrderService.process_order_items oid st l).1.orderItems =
      st.orderItems ++ snapshot_items st.products oid l := by
  induction l generalizing st with
  | nil => simp [OrderService.process_order_items, snapshot_items]
  | cons ci rest ih =>
    have h1 := hpres ci (List.mem_cons_self _ _)
    cases hp : ProductRepository.get_by_id st ci.product_id with
    | none => rw [hp] at h1; simp at h1
    | some p =>
      have hpres2 : ∀ x ∈ rest,
          (ProductRepository.get_by_id
            (ProductRepository.update_stock
              { st with orderItems := st.orderItems ++
                  [⟨oid, ci.product_id, p.name, p.sku, p.price, ci.quantity⟩] }
              ci.product_id (-ci.quantity)) x.product_id).isSome := by
        intro x hx
        have := hpres x (List.mem_cons_of_mem _ hx)
        simpa [ProductRepository.get_by_id, ProductRepository.update_stock,
          find?_update_first_product_stock_isSome] using this
      have hrec := ih _ hpres2
      rw [OrderService.process_order_items, hp]
      refine ⟨hrec.1, ?_, ?_, ?_, ?_, ?_⟩
      · rw [hrec.2.1]; rfl
      · rw [hrec.2.2.1]; rfl
      · rw [hrec.2.2.2.1]; rfl
      · rw [hrec.2.2.2.2.1]; rfl
      · rw [hrec.2.2.2.2.2]
        show (st.orderItems ++ [_]) ++ _ = _
        rw [ProductRepository.get_by_id] at hp
        rw [show (ProductRepository.update_stock
            { st with orderItems := st.orderItems ++
                [⟨oid, ci.product_id, p.name, p.sku, p.price, ci.quantity⟩] }
            ci.product_id (-ci.quantity)).products =
            update_first_product_stock st.products ci.product_id (-ci.quantity) from rfl]
        rw [snapshot_items_update_stock]
        rw [show snapshot_items st.products oid (ci :: rest) =
          ⟨oid, ci.product_id, p.name, p.sku, p.price, ci.quantity⟩ ::
            snapshot_items st.products oid rest from by rw [snapshot_items, hp]]
        simp

lemma process_order_items_inv (oid : Nat) (st : DBState) (l : List CartItem)
    (hinv : ∀ p ∈ st.products, 0 ≤ p.stock_quantity)
    (hbound : ∀ ci ∈ l, ∀ p,
      st.products.find? (fun q => q.id = ci.product_id) = some p →
        ci.quantity ≤ p.stock_quantity)
    (hnodup : (l.map (fun ci => ci.product_id)).Nodup) :
    ∀ q ∈ (OrderService.process_order_items oid st l).1.products, 0 ≤ q.stock_quantity := by
  induction l generalizing st with
  | nil => simpa [OrderService.process_order_items] using hinv
  | cons ci rest ih =>
    cases hp : ProductRepository.get_by_id st ci.product_id with
    | none =>
      rw [OrderService.process_order_items, hp]
      exact hinv
    | some p =>
      rw [OrderService.process_order_items, hp]
      rw [ProductRepository.get_by_id] at hp
      have hnotin : ci.product_id ∉ rest.map (fun x => x.product_id) :=
        (List.nodup_cons.mp hnodup).1
      have hinv2 : ∀ q ∈ update_first_product_stock st.products ci.product_id (-ci.quantity),
          0 ≤ q.stock_quantity := by
        refine inv_update_first_product_stock _ _ _ hinv ?_
        intro p' hp'
        rw [hp] at hp'
        have hpe : p' = p := by injection hp'.symm
        subst hpe
        have := hbound ci (List.mem_cons_self _ _) p' hp
        omega
      refine ih _ hinv2 ?_ (List.nodup_cons.mp hnodup).2
      intro x hx p' hp'
      have hne : x.product_id ≠ ci.product_id := by
        intro hc
        exact hnotin (hc ▸ List.mem_map_of_mem (fun y => y.product_id) hx)
      rw [show (ProductRepository.update_stock
            { st with orderItems := st.orderItems ++
                [⟨oid, ci.product_id, p.name, p.sku, p.price, ci.quantity⟩] }
            ci.product_id (-ci.quantity)).products =
            update_first_product_stock st.products ci.product_id (-ci.quantity) from rfl] at hp'
      rw [find?_update_first_product_stock_ne _ _ _ _ hne] at hp'
      exact hbound x (List.mem_cons_of_mem _ hx) p' hp'

lemma pairs_nodup_filter (l : List CartItem) (cid : Nat)
    (h : (l.map (fun ci => (ci.cart_id, ci.product_id))).Nodup) :
    ((l.filter (fun ci => ci.cart_id = cid)).map (fun ci => ci.product_id)).Nodup := by
  induction l with
  | nil => simp
  | cons ci rest ih =>
    rw [List.map_cons, List.nodup_cons] at h
    by_cases hc : ci.cart_id = cid
    · rw [List.filter_cons_of_pos (by simp [hc]), List.map_cons, List.nodup_cons]
      refine ⟨?_, ih h.2⟩
      intro hmem
      rcases List.mem_map.mp hmem with ⟨ci', hci', hpe⟩
      have hci'r : ci' ∈ rest := List.mem_of_mem_filter hci'
      have hcc : ci'.cart_id = cid := by
        have := List.of_mem_filter hci'
        simpa using this
      refine h.1 ?_
      have : (ci'.cart_id, ci'.product_id) = (ci.cart_id, ci.product_id) := by
        rw [hcc, hc, hpe]
      exact this ▸ List.mem_map_of_mem _ hci'r
    · rw [List.filter_cons_of_neg (by simp [hc])]
      exact ih h.2

lemma restore_items_stock_frames (st : DBState) (l : List OrderItem) :
    (OrderService.restore_items_stock st l).1.orders = st.orders ∧
    (OrderService.restore_items_stock st l).1.carts = st.carts ∧
    (OrderService.restore_items_stock st l).1.cartItems = st.cartItems ∧
    (OrderService.restore_items_stock st l).1.orderItems = st.orderItems ∧
    (OrderService.restore_items_stock st l).1.nextCartId = st.nextCartId := by
  induction l generalizing st with
  | nil => exact ⟨rfl, rfl, rfl, rfl, rfl⟩
  | cons oi rest ih =>
    cases hp : ProductRepository.get_by_id st oi.product_id with
    | none => rw [OrderService.restore_items_stock, hp]; exact ⟨rfl, rfl, rfl, rfl, rfl⟩
    | some p =>
      rw [OrderService.restore_items_stock, hp]
      exact ih _

lemma restore_items_stock_ok (st : DBState) (l : List OrderItem)
    (hpres : ∀ oi ∈ l, (ProductRepository.get_by_id st oi.product_id).isSome) :
    (OrderService.restore_items_stock st l).2 = true := by
  induction l generalizing st with
  | nil => rfl
  | cons oi rest ih =>
    have h1 := hpres oi (List.mem_cons_self _ _)
    cases hp : ProductRepository.get_by_id st oi.product_id with
    | none => rw [hp] at h1; simp at h1
    | some p =>
      rw [OrderService.restore_items_stock, hp]
      refine ih _ ?_
      intro x hx
      have := hpres x (List.mem_cons_of_mem _ hx)
      simpa [ProductRepository.get_by_id, ProductRepository.update_stock,
        find?_update_first_product_stock_isSome] using this

lemma restore_items_stock_other (st : DBState) (l : List OrderItem) (pid : Nat)
    (h : ∀ oi ∈ l, oi.product_id ≠ pid) :
    (OrderService.restore_items_stock st l).1.products.find? (fun p => p.id = pid) =
      st.products.find? (fun p => p.id = pid) := by
  induction l generalizing st with
  | nil => rfl
  | cons oi rest ih =>
    cases hp : ProductRepository.get_by_id st oi.product_id with
    | none => rw [OrderService.restore_items_stock, hp]
    | some p =>
      rw [OrderService.restore_items_stock, hp]
      rw [ih _ (fun x hx => h x (List.mem_cons_of_mem _ hx))]
      exact find?_update_first_product_stock_ne _ _ _ _
        (fun hc => h oi (List.mem_cons_self _ _) hc.symm)

lemma restore_items_stock_incr (st : DBState) (l : List OrderItem)
    (hnodup : (l.map (fun oi => oi.product_id)).Nodup)
    (hpres : ∀ oi ∈ l, (ProductRepository.get_by_id st oi.product_id).isSome) :
    ∀ oi ∈ l, ∀ p, st.products.find? (fun q => q.id = oi.product_id) = some p →
      (OrderService.restore_items_stock st l).1.products.find? (fun q => q.id = oi.product_id) =
        some { p with stock_quantity := p.stock_quantity + oi.quantity } := by
  induction l generalizing st with
  | nil => intro oi hoi; simp at hoi
  | cons oi0 rest ih =>
    intro oi hoi p hfind
    have h1 := hpres oi0 (List.mem_cons_self _ _)
    cases hp : ProductRepository.get_by_id st oi0.product_id with
    | none => rw [hp] at h1; simp at h1
    | some p0 =>
      rw [OrderService.restore_items_stock, hp]
      have hnotin : oi0.product_id ∉ rest.map (fun x => x.product_id) :=
        (List.nodup_cons.mp hnodup).1
      rcases List.mem_cons.mp hoi with hc | hc
      · subst hc
        have hpe : p0 = p := by
          rw [ProductRepository.get_by_id] at hp
          rw [hp] at hfind
          injection hfind
        subst hpe
        rw [restore_items_stock_other]
        · show (update_first_product_stock st.products oi.product_id oi.quantity).find? _ = _
          rw [ProductRepository.get_by_id] at hp
          exact find?_update_first_product_stock_eq _ _ _ _ hp
        · intro x hx hcx
          exact hnotin (hcx ▸ List.mem_map_of_mem (fun y => y.product_id) hx)
      · have hne : oi.product_id ≠ oi0.product_id := by
          intro hcx
          exact hnotin (hcx ▸ List.mem_map_of_mem (fun y => y.product_id) hc)
        refine ih _ (List.nodup_cons.mp hnodup).2 ?_ oi hc p ?_
        · intro x hx
          have := hpres x (List.mem_cons_of_mem _ hx)
          simpa [ProductRepository.get_by_id, ProductRepository.update_stock,
            find?_update_first_product_stock_isSome] using this
        · show (update_first_product_stock st.products oi0.product_id oi0.quantity).find? _ = _
          rw [find?_update_first_product_stock_ne _ _ _ _ hne]
          exact hfind

lemma get_or_create_frames (s : DBState) (cid : Nat) :
    (CartRepository.get_or_create s cid).1.products = s.products ∧
    (CartRepository.get_or_create s cid).1.cartItems = s.cartItems ∧
    (CartRepository.get_or_create s cid).1.orders = s.orders ∧
    (CartRepository.get_or_create s cid).1.orderItems = s.orderItems := by
  rw [CartRepository.get_or_create]
  cases h : CartRepository.get_by_customer_id s cid with
  | some c => exact ⟨rfl, rfl, rfl, rfl⟩
  | none => exact ⟨rfl, rfl, rfl, rfl⟩

lemma add_item_frames (s : DBState) (cart : Cart) (pid : Nat) (q : Int) :
    (CartRepository.add_item s cart pid q).products = s.products ∧
    (CartRepository.add_item s cart pid q).orders = s.orders ∧
    (CartRepository.add_item s cart pid q).orderItems = s.orderItems := by
  rw [CartRepository.add_item]
  cases h : CartRepository.get_cart_item s cart.id pid with
  | some ci => exact ⟨rfl, rfl, rfl⟩
  | none => exact ⟨rfl, rfl, rfl⟩

lemma process_order_items_frames (oid : Nat) (st : DBState) (l : List CartItem) :
    (OrderService.process_order_items oid st l).1.orders = st.orders ∧
    (OrderService.process_order_items oid st l).1.carts = st.carts ∧
    (OrderService.process_order_items oid st l).1.cartItems = st.cartItems ∧
    (OrderService.process_order_items oid st l).1.nextCartId = st.nextCartId := by
  induction l generalizing st with
  | nil => exact ⟨rfl, rfl, rfl, rfl⟩
  | cons ci rest ih =>
    cases hp : ProductRepository.get_by_id st ci.product_id with
    | none => rw [OrderService.process_order_items, hp]; exact ⟨rfl, rfl, rfl, rfl⟩
    | some p =>
      rw [OrderService.process_order_items, hp]
      exact ih _

lemma add_to_cart_products (s : DBState) (cid pid : Nat) (q : Int) :
    (CartService.add_to_cart s cid pid q).1.products = s.products := by
  simp only [CartService.add_to_cart]
  split
  · rfl
  split
  · rfl
  split
  · rfl
  split
  · rfl
  split
  · rfl
  split
  · split
    · exact (get_or_create_frames s cid).1
    split
    · exact (get_or_create_frames s cid).1
    rw [(add_item_frames _ _ _ _).1]
    exact (get_or_create_frames s cid).1
  · rw [(add_item_frames _ _ _ _).1]
    exact (get_or_create_frames s cid).1

lemma add_to_cart_ok_effect (s : DBState) (cid pid : Nat) (q : Int)
    (h : (CartService.add_to_cart s cid pid q).2 = .ok ()) :
    (CartService.add_to_cart s cid pid q).1.orders = s.orders ∧
    (CartService.add_to_cart s cid pid q).1.orderItems = s.orderItems ∧
    ((CartService.add_to_cart s cid pid q).1.cartItems =
        update_first_cart_item_quantity s.cartItems
          (CartRepository.get_or_create s cid).2.id pid q ∨
      (CartService.add_to_cart s cid pid q).1.cartItems =
        s.cartItems ++ [⟨(CartRepository.get_or_create s cid).2.id, pid, q⟩]) := by
  have hgoc := get_or_create_frames s cid
  have hmain : ∀ ok : (CartService.add_to_cart s cid pid q).1 =
        CartRepository.add_item (CartRepository.get_or_create s cid).1
          (CartRepository.get_or_create s cid).2 pid q,
      (CartService.add_to_cart s cid pid q).1.orders = s.orders ∧
      (CartService.add_to_cart s cid pid q).1.orderItems = s.orderItems ∧
      ((CartService.add_to_cart s cid pid q).1.cartItems =
          update_first_cart_item_quantity s.cartItems
            (CartRepository.get_or_create s cid).2.id pid q ∨
        (CartService.add_to_cart s cid pid q).1.cartItems =
          s.cartItems ++ [⟨(CartRepository.get_or_create s cid).2.id, pid, q⟩]) := by
    intro hok
    rw [hok]
    refine ⟨?_, ?_, ?_⟩
    · rw [(add_item_frames _ _ _ _).2.1, hgoc.2.2.1]
    · rw [(add_item_frames _ _ _ _).2.2, hgoc.2.2.2]
    · rw [CartRepository.add_item]
      cases h2 : CartRepository.get_cart_item
          (CartRepository.get_or_create s cid).1 (CartRepository.get_or_create s cid).2.id pid with
      | some ci' => left; show update_first_cart_item_quantity _ _ _ _ = _; rw [hgoc.2.1]
      | none => right; show _ ++ _ = _; rw [hgoc.2.1]
  revert h
  have hsplit : (CartService.add_to_cart s cid pid q).2 = .ok () →
      (CartService.add_to_cart s cid pid q).1 =
        CartRepository.add_item (CartRepository.get_or_create s cid).1
          (CartRepository.get_or_create s cid).2 pid q := by
    simp only [CartService.add_to_cart]
    split
    · intro h; simp at h
    split
    · intro h; simp at h
    split
    · intro h; simp at h
    split
    · intro h; simp at h
    split
    · intro h; simp at h
    split
    · split
      · intro h; simp at h
      split
      · intro h; simp at h
      intro _; rfl
    · intro _; rfl
  intro h
  exact hmain (hsplit h)

lemma update_stock_service_frames (s : DBState) (pid : Nat) (c : Int) (operation : String) :
    (ProductService.update_stock s pid c operation).1.carts = s.carts ∧
    (ProductService.update_stock s pid c operation).1.cartItems = s.cartItems ∧
    (ProductService.update_stock s pid c operation).1.orders = s.orders ∧
    (ProductService.update_stock s pid c operation).1.orderItems = s.orderItems ∧
    (ProductService.update_stock s pid c operation).1.nextCartId = s.nextCartId := by
  simp only [ProductService.update_stock]
  split
  · exact ⟨rfl, rfl, rfl, rfl, rfl⟩
  split
  · exact ⟨rfl, rfl, rfl, rfl, rfl⟩
  split
  · split
    · exact ⟨rfl, rfl, rfl, rfl, rfl⟩
    · exact ⟨rfl, rfl, rfl, rfl, rfl⟩
  split
  · split
    · exact ⟨rfl, rfl, rfl, rfl, rfl⟩
    · exact ⟨rfl, rfl, rfl, rfl, rfl⟩
  · exact ⟨rfl, rfl, rfl, rfl, rfl⟩

lemma update_stock_service_inv (s : DBState) (pid : Nat) (c : Int) (operation : String)
    (hadd : operation = "add" → 0 ≤ c) (hinv : stock_nonneg s) :
    stock_nonneg (ProductService.update_stock s pid c operation).1 := by
  rw [ProductService.update_stock]
  cases hp : ProductRepository.get_by_id s pid with
  | none => simp only [hp]; exact hinv
  | some product =>
    simp only [hp]
    have hmem : product ∈ s.products := by
      rw [ProductRepository.get_by_id] at hp
      exact List.mem_of_find?_eq_some hp
    have hps : 0 ≤ product.stock_quantity := hinv product hmem
    by_cases h1 : operation = "add"
    · rw [if_pos h1]
      exact inv_set_first_product_stock _ _ _ hinv (by have := hadd h1; omega)
    · rw [if_neg h1]
      by_cases h2 : operation = "subtract"
      · rw [if_pos h2]
        by_cases h3 : product.stock_quantity - c < 0
        · rw [if_pos h3]; exact hinv
        · rw [if_neg h3]
          exact inv_set_first_product_stock _ _ _ hinv (by omega)
      · rw [if_neg h2]
        by_cases h4 : operation = "set"
        · rw [if_pos h4]
          by_cases h5 : c < 0
          · rw [if_pos h5]; exact hinv
          · rw [if_neg h5]
            exact inv_set_first_product_stock _ _ _ hinv (by omega)
        · rw [if_neg h4]; exact hinv

lemma create_order_ok_spec (s : DBState) (cid : Nat) (addr : ShippingAddress)
    (pm notes : Option String) (onum : String) (oid : Nat)
    (hpm : OrderService.invalid_payment_method pm = false)
    (cart : Cart) (hcart : CartRepository.get_by_customer_id s cid = some cart)
    (hlen : ¬ (cart_items_of s cart).length = 0)
    (hval : OrderService.validate_items_stock s (cart_items_of s cart) = Except.ok ()) :
    ∃ sub : Rat, OrderService.cart_lines_subtotal s (cart_items_of s cart) = some sub ∧
      (OrderService.create_order_from_cart s cid addr pm notes onum oid).2 =
        .ok (OrderService.checkout_order cid addr pm notes onum oid sub) ∧
      (OrderService.create_order_from_cart s cid addr pm notes onum oid).1.orders =
        s.orders ++ [OrderService.checkout_order cid addr pm notes onum oid sub] ∧
      (OrderService.create_order_from_cart s cid addr pm notes onum oid).1.orderItems =
        s.orderItems ++ snapshot_items s.products oid (cart_items_of s cart) ∧
      (OrderService.create_order_from_cart s cid addr pm notes onum oid).1.carts = s.carts ∧
      (OrderService.create_order_from_cart s cid addr pm notes onum oid).1.nextCartId =
        s.nextCartId ∧
      (OrderService.create_order_from_cart s cid addr pm notes onum oid).1.cartItems =
        s.cartItems.filter (fun ci => ¬ ci.cart_id = cart.id) := by
  have hpres : ∀ ci ∈ cart_items_of s cart,
      (ProductRepository.get_by_id s ci.product_id).isSome := by
    intro ci hci
    obtain ⟨p, hp, _⟩ := validate_items_stock_ok s _ hval ci hci
    rw [hp]; rfl
  obtain ⟨sub, hsub⟩ := Option.isSome_iff_exists.mp (cart_lines_subtotal_isSome s _ hpres)
  refine ⟨sub, hsub, ?_⟩
  have hps := process_order_items_spec
    (OrderService.checkout_order cid addr pm notes onum oid sub).id
    { s with orders := s.orders ++
        [OrderService.checkout_order cid addr pm notes onum oid sub] }
    (cart_items_of s cart) hpres
  have hres : OrderService.create_order_from_cart s cid addr pm notes onum oid =
      (CartRepository.clear_cart
        (OrderService.process_order_items
          (OrderService.checkout_order cid addr pm notes onum oid sub).id
          { s with orders := s.orders ++
              [OrderService.checkout_order cid addr pm notes onum oid sub] }
          (cart_items_of s cart)).1 cart,
       .ok (OrderService.checkout_order cid addr pm notes onum oid sub)) := by
    rw [OrderService.create_order_from_cart]
    simp only [hpm, Bool.false_eq_true, if_false, hcart, hval, hsub, if_neg hlen]
    simp only [hps.1, ite_true]
  rw [hres]
  refine ⟨rfl, ?_, ?_, ?_, ?_, ?_⟩
  · exact hps.2.1
  · exact hps.2.2.2.2.2
  · exact hps.2.2.1
  · exact hps.2.2.2.2.1
  · show (OrderService.process_order_items _ _ _).1.cartItems.filter _ = _
    rw [hps.2.2.2.1]

lemma snapshot_items_mem (ps : List Product) (oid : Nat) (l : List CartItem)
    (hpres : ∀ ci ∈ l, (ps.find? (fun p => p.id = ci.product_id)).isSome) :
    ∀ ci ∈ l, ∀ p, ps.find? (fun q => q.id = ci.product_id) = some p →
      (⟨oid, ci.product_id, p.name, p.sku, p.price, ci.quantity⟩ : OrderItem) ∈
        snapshot_items ps oid l := by
  induction l with
  | nil => intro ci hci; simp at hci
  | cons ci0 rest ih =>
    intro ci hci p hp
    have h1 := hpres ci0 (List.mem_cons_self _ _)
    cases hp0 : ps.find? (fun q => q.id = ci0.product_id) with
    | none => rw [hp0] at h1; simp at h1
    | some p0 =>
      rw [snapshot_items, hp0]
      rcases List.mem_cons.mp hci with hc | hc
      · subst hc
        rw [hp0] at hp
        have : p0 = p := by injection hp
        subst this
        exact List.mem_cons_self _ _
      · exact List.mem_cons_of_mem _
          (ih (fun x hx => hpres x (List.mem_cons_of_mem _ hx)) ci hc p hp)

lemma restore_items_stock_isSome (st : DBState) (l : List OrderItem) (pid : Nat) :
    ((OrderService.restore_items_stock st l).1.products.find? (fun p => p.id = pid)).isSome =
      (st.products.find? (fun p => p.id = pid)).isSome := by
  induction l generalizing st with
  | nil => rfl
  | cons oi rest ih =>
    cases hp : ProductRepository.get_by_id st oi.product_id with
    | none =>
      have he : (OrderService.restore_items_stock st (oi :: rest)).1 = st := by
        rw [OrderService.restore_items_stock, hp]
      rw [he]
    | some p =>
      have he : (OrderService.restore_items_stock st (oi :: rest)).1 =
          (OrderService.restore_items_stock
            (ProductRepository.update_stock st oi.product_id oi.quantity) rest).1 := by
        rw [OrderService.restore_items_stock, hp]
      rw [he, ih]
      exact find?_update_first_product_stock_isSome _ _ _ _

/-- The unfolded shape of `OrderService.update_order_status` on a found
order with a valid status and no dangling item→product references. -/
lemma update_order_status_spec (s : DBState) (oid : Nat) (status : String) (now : Nat)
    (o : Order) (hvalid : OrderStatus.is_valid status = true)
    (ho : OrderRepository.get_by_id s oid = some o)
    (hpres : ∀ oi ∈ order_items_of s o,
      (ProductRepository.get_by_id s oi.product_id).isSome) :
    OrderService.update_order_status s oid status now =
      (OrderRepository.update_status
        (if status = "refunded" ∧ ¬ o.status = "cancelled" then
          (OrderService.restore_items_stock
            (if status = "cancelled" ∧ ¬ (o.status = "cancelled" ∨ o.status = "refunded") then
              (OrderService.restore_items_stock s (order_items_of s o)).1
            else s) (order_items_of s o)).1
        else
          (if status = "cancelled" ∧ ¬ (o.status = "cancelled" ∨ o.status = "refunded") then
            (OrderService.restore_items_stock s (order_items_of s o)).1
          else s))
        oid status now,
       .ok (OrderRepository.apply_status o status now)) := by
  rw [OrderService.update_order_status]
  rw [if_neg (by simp [hvalid])]
  simp only [ho]
  by_cases c1 : status = "cancelled" ∧ ¬ (o.status = "cancelled" ∨ o.status = "refunded")
  · have hok1 : (OrderService.restore_items_stock s (order_items_of s o)).2 = true :=
      restore_items_stock_ok _ _ hpres
    have c2 : ¬ (status = "refunded" ∧ ¬ o.status = "cancelled") := by
      rintro ⟨h, -⟩
      rw [c1.1] at h
      simp at h
    rw [if_pos c1, if_pos c1, if_neg c2, if_neg c2]
    rw [if_neg (by simp [hok1])]
    rw [if_neg (by simp)]
  · rw [if_neg c1, if_neg c1]
    by_cases c2 : status = "refunded" ∧ ¬ o.status = "cancelled"
    · have hok2 : (OrderService.restore_items_stock s (order_items_of s o)).2 = true :=
        restore_items_stock_ok _ _ hpres
      rw [if_neg (by simp)]
      rw [if_pos c2, if_pos c2]
      rw [if_neg (by simp [hok2])]
    · rw [if_neg (by simp)]
      rw [if_neg c2, if_neg c2]
      rw [if_neg (by simp)]

lemma pairs_map_update_first_cart_item (l : List CartItem) (cid pid : Nat) (q : Int) :
    (update_first_cart_item_quantity l cid pid q).map (fun ci => (ci.cart_id, ci.product_id)) =
      l.map (fun ci => (ci.cart_id, ci.product_id)) := by
  induction l with
  | nil => rfl
  | cons ci rest ih =>
    by_cases h : ci.cart_id = cid ∧ ci.product_id = pid
    · rw [update_first_cart_item_quantity, if_pos h]
      simp
    · rw [update_first_cart_item_quantity, if_neg h]
      simp [ih]

lemma add_to_cart_pairs (s : DBState) (cid pid : Nat) (q : Int)
    (h : cart_pairs_nodup s) : cart_pairs_nodup (CartService.add_to_cart s cid pid q).1 := by
  have hgoc := get_or_create_frames s cid
  have hmid : cart_pairs_nodup (CartRepository.get_or_create s cid).1 := by
    unfold cart_pairs_nodup at h ⊢
    rw [hgoc.2.1]
    exact h
  have hadd : cart_pairs_nodup
      (CartRepository.add_item (CartRepository.get_or_create s cid).1
        (CartRepository.get_or_create s cid).2 pid q) := by
    unfold cart_pairs_nodup at hmid ⊢
    rw [CartRepository.add_item]
    cases hci : CartRepository.get_cart_item (CartRepository.get_or_create s cid).1
        (CartRepository.get_or_create s cid).2.id pid with
    | some existing =>
      show ((update_first_cart_item_quantity _ _ _ _).map _).Nodup
      rw [pairs_map_update_first_cart_item]
      exact hmid
    | none =>
      show (((CartRepository.get_or_create s cid).1.cartItems ++ [_]).map _).Nodup
      rw [List.map_append]
      rw [List.nodup_append]
      refine ⟨hmid, List.nodup_singleton _, ?_⟩
      intro a ha hb
      simp only [List.map_cons, List.map_nil, List.mem_singleton] at hb
      subst hb
      rcases List.mem_map.mp ha with ⟨ci', hci', hpe⟩
      have hnone := List.find?_eq_none.mp hci ci' hci'
      simp only [decide_eq_true_eq] at hnone
      apply hnone
      constructor
      · have := congrArg Prod.fst hpe; simpa using this
      · have := congrArg Prod.snd hpe; simpa using this
  simp only [CartService.add_to_cart]
  split
  · exact h
  split
  · exact h
  split
  · exact h
  split
  · exact h
  split
  · exact h
  split
  · split
    · exact hmid
    split
    · exact hmid
    · exact hadd
  · exact hadd

lemma create_order_pairs (s : DBState) (cid : Nat) (addr : ShippingAddress)
    (pm notes : Option String) (onum : String) (oid : Nat) (h : cart_pairs_nodup s) :
    cart_pairs_nodup (OrderService.create_order_from_cart s cid addr pm notes onum oid).1 := by
  simp only [OrderService.create_order_from_cart]
  split
  · exact h
  split
  · exact h
  split
  · exact h
  split
  · exact h
  split
  · exact h
  split
  · rename_i cart hcart hlen u hval sub hsub hr2
    unfold cart_pairs_nodup
    show (((OrderService.process_order_items _ _ _).1.cartItems.filter _).map _).Nodup
    rw [(process_order_items_frames _ _ _).2.2.1]
    show (((s.cartItems.filter _).map _)).Nodup
    exact (h.sublist ((List.filter_sublist _).map _))
  · rename_i cart hcart hlen u hval sub hsub hr2
    unfold cart_pairs_nodup
    rw [(process_order_items_frames _ _ _).2.2.1]
    exact h

lemma create_order_inv (s : DBState) (cid : Nat) (addr : ShippingAddress)
    (pm notes : Option String) (onum : String) (oid : Nat) (hwf : cart_pairs_nodup s)
    (hinv : stock_nonneg s) :
    stock_nonneg (OrderService.create_order_from_cart s cid addr pm notes onum oid).1 := by
  simp only [OrderService.create_order_from_cart]
  split
  · exact hinv
  split
  · exact hinv
  split
  · exact hinv
  split
  · exact hinv
  split
  · exact hinv
  rename_i x1 cart hcart hlen x2 u hval x3 sub hsub
  have hval' : OrderService.validate_items_stock s (cart_items_of s cart) = .ok () := by
    cases u; exact hval
  have hbound0 := validate_items_stock_ok s _ hval'
  have hnodup : ((cart_items_of s cart).map (fun ci => ci.product_id)).Nodup :=
    pairs_nodup_filter s.cartItems cart.id hwf
  have hbound : ∀ ci ∈ cart_items_of s cart, ∀ p,
      s.products.find? (fun q => q.id = ci.product_id) = some p →
        ci.quantity ≤ p.stock_quantity := by
    intro ci hci p hp
    obtain ⟨p0, hp0, hle⟩ := hbound0 ci hci
    rw [ProductRepository.get_by_id] at hp0
    rw [hp0] at hp
    have : p0 = p := by injection hp
    subst this
    exact hle
  split
  · intro p hp
    exact process_order_items_inv
      (OrderService.checkout_order cid addr pm notes onum oid sub).id
      { s with orders := s.orders ++ [OrderService.checkout_order cid addr pm notes onum oid sub] }
      (cart_items_of s cart) hinv hbound hnodup p hp
  · intro p hp
    exact process_order_items_inv
      (OrderService.checkout_order cid addr pm notes onum oid sub).id
      { s with orders := s.orders ++ [OrderService.checkout_order cid addr pm notes onum oid sub] }
      (cart_items_of s cart) hinv hbound hnodup p hp

end Lemmas

/-! ### The claims -/

/-- C4 — Order total correctness: for every non-empty cart that passes
checkout, the created order's subtotal is the cart subtotal (the sum of
quantity × live product price over the cart lines), tax is exactly
subtotal × 0.10, shipping is the flat 10.00 constant, and total is
subtotal + tax + shipping_cost. -/
theorem C4_order_totals (s : DBState) (cid : Nat) (addr : ShippingAddress)
    (pm notes : Option String) (onum : String) (oid : Nat)
    (hpm : OrderService.invalid_payment_method pm = false)
    (cart : Cart) (hcart : CartRepository.get_by_customer_id s cid = some cart)
    (hlen : ¬ (cart_items_of s cart).length = 0)
    (hval : OrderService.validate_items_stock s (cart_items_of s cart) = Except.ok ()) :
    ∃ (sub : Rat) (o : Order),
      OrderService.cart_lines_subtotal s (cart_items_of s cart) = some sub ∧
      (OrderService.create_order_from_cart s cid addr pm notes onum oid).2 = .ok o ∧
      o.subtotal = sub ∧ o.tax = sub * (1 / 10 : Rat) ∧ o.shipping_cost = 10 ∧
      o.total = o.subtotal + o.tax + o.shipping_cost := by
  obtain ⟨sub, hsub, hok, _⟩ :=
    create_order_ok_spec s cid addr pm notes onum oid hpm cart hcart hlen hval
  exact ⟨sub, _, hsub, hok, rfl, rfl, rfl, rfl⟩

/-- C4 witness: the cart with lines (price 10.00, qty 2) and
(price 5.00, qty 1) yields subtotal 25.00, tax 2.50, total 37.50. -/
theorem C4_order_totals_witness :
    OrderService.cart_lines_subtotal sCart2 (cart_items_of sCart2 ⟨1, 1⟩) = some 25 ∧
    ∃ o : Order, (OrderService.create_order_from_cart sCart2 1 addr0 none none "ORD-A" 1).2 =
        .ok o ∧
      o.subtotal = 25 ∧ o.tax = 5 / 2 ∧ o.shipping_cost = 10 ∧ o.total = 75 / 2 := by
  obtain ⟨sub, o, hsub, hok, h1, h2, h3, h4⟩ :=
    C4_order_totals sCart2 1 addr0 none none "ORD-A" 1 (by decide) ⟨1, 1⟩ (by decide)
      (by decide) (by decide)
  have hc : OrderService.cart_lines_subtotal sCart2 (cart_items_of sCart2 ⟨1, 1⟩) =
      some 25 := by
    norm_num [OrderService.cart_lines_subtotal, cart_items_of, sCart2,
      ProductRepository.get_by_id, prodA, prodB, List.find?, List.filter]
  have hse : sub = 25 := by
    rw [hc] at hsub
    injection hsub with h
    exact h.symm
  subst hse
  refine ⟨hc, o, hok, by rw [h1], by rw [h2]; norm_num, h3, ?_⟩
  rw [h4, h1, h2, h3]
  norm_num

/-- C9 — checkout never checks `is_active`: a cart line whose product is
inactive but sufficiently stocked sails through `create_order_from_cart`,
which re-validates only `stock_quantity ≥ quantity`; the order is created
with an OrderItem for the inactive product. -/
theorem C9_inactive_product_checkout (s : DBState) (cid : Nat) (addr : ShippingAddress)
    (pm notes : Option String) (onum : String) (oid : Nat)
    (hpm : OrderService.invalid_payment_method pm = false)
    (cart : Cart) (hcart : CartRepository.get_by_customer_id s cid = some cart)
    (hlen : ¬ (cart_items_of s cart).length = 0)
    (hval : OrderService.validate_items_stock s (cart_items_of s cart) = Except.ok ())
    (ci : CartItem) (hci : ci ∈ cart_items_of s cart)
    (p : Product) (hp : ProductRepository.get_by_id s ci.product_id = some p)
    (_hinactive : p.is_active = false) :
    ∃ o : Order, (OrderService.create_order_from_cart s cid addr pm notes onum oid).2 = .ok o ∧
      (⟨oid, ci.product_id, p.name, p.sku, p.price, ci.quantity⟩ : OrderItem) ∈
        (OrderService.create_order_from_cart s cid addr pm notes onum oid).1.orderItems := by
  obtain ⟨sub, hsub, hok, horders, hitems, _⟩ :=
    create_order_ok_spec s cid addr pm notes onum oid hpm cart hcart hlen hval
  refine ⟨_, hok, ?_⟩
  rw [hitems]
  refine List.mem_append_right _ ?_
  refine snapshot_items_mem s.products oid _ ?_ ci hci p hp
  intro x hx
  obtain ⟨px, hpx, _⟩ := validate_items_stock_ok s _ hval x hx
  rw [ProductRepository.get_by_id] at hpx
  rw [hpx]; rfl

/-- C9 witness: a cart with qty 2 of an inactive product with stock 5
checks out successfully, creating an OrderItem for it. -/
theorem C9_inactive_product_checkout_witness :
    ∃ o : Order, (OrderService.create_order_from_cart sInactive 1 addr0 none none "ORD-I" 1).2 =
        .ok o ∧
      (⟨1, 1, "Retired", "SKU-R", 10, 2⟩ : OrderItem) ∈
        (OrderService.create_order_from_cart sInactive 1 addr0 none none "ORD-I" 1).1.orderItems :=
  C9_inactive_product_checkout sInactive 1 addr0 none none "ORD-I" 1 (by decide) ⟨1, 1⟩
    (by decide) (by decide) (by decide) ⟨1, 1, 2⟩ (by decide)
    ⟨1, "Retired", "SKU-R", 10, 5, false⟩ (by decide) (by decide)

/-- C7 — OrderItem snapshot immutability: the items created by checkout
carry the product name/sku/price read at order-creation time, and the
product-mutation path (`ProductRepository.update` of name/price) never
touches the order_items table. -/
theorem C7_snapshot_immutability (s : DBState) (cid : Nat) (addr : ShippingAddress)
    (pm notes : Option String) (onum : String) (oid : Nat)
    (hpm : OrderService.invalid_payment_method pm = false)
    (cart : Cart) (hcart : CartRepository.get_by_customer_id s cid = some cart)
    (hlen : ¬ (cart_items_of s cart).length = 0)
    (hval : OrderService.validate_items_stock s (cart_items_of s cart) = Except.ok ()) :
    (OrderService.create_order_from_cart s cid addr pm notes onum oid).1.orderItems =
      s.orderItems ++ snapshot_items s.products oid (cart_items_of s cart) ∧
    (∀ ci ∈ cart_items_of s cart, ∀ p, ProductRepository.get_by_id s ci.product_id = some p →
      (⟨oid, ci.product_id, p.name, p.sku, p.price, ci.quantity⟩ : OrderItem) ∈
        (OrderService.create_order_from_cart s cid addr pm notes onum oid).1.orderItems) ∧
    (∀ (s' : DBState) (pid : Nat) (n : String) (pr : Rat),
      (ProductRepository.update_name_price s' pid n pr).orderItems = s'.orderItems) := by
  obtain ⟨sub, hsub, hok, horders, hitems, _⟩ :=
    create_order_ok_spec s cid addr pm notes onum oid hpm cart hcart hlen hval
  have hpres : ∀ x ∈ cart_items_of s cart,
      (s.products.find? (fun p => p.id = x.product_id)).isSome := by
    intro x hx
    obtain ⟨px, hpx, _⟩ := validate_items_stock_ok s _ hval x hx
    rw [ProductRepository.get_by_id] at hpx
    rw [hpx]; rfl
  refine ⟨hitems, ?_, fun s' pid n pr => rfl⟩
  intro ci hci p hp
  rw [hitems]
  exact List.mem_append_right _ (snapshot_items_mem s.products oid _ hpres ci hci p hp)

/-- C7 witness: checking out the two-line demo cart records the snapshot
items, and a name/price update never changes the order_items table. -/
theorem C7_snapshot_immutability_witness :
    (OrderService.create_order_from_cart sCart2 1 addr0 none none "ORD-A" 1).1.orderItems =
      sCart2.orderItems ++ snapshot_items sCart2.products 1 (cart_items_of sCart2 ⟨1, 1⟩) ∧
    (⟨1, 1, "Widget", "SKU-A", 10, 2⟩ : OrderItem) ∈
      (OrderService.create_order_from_cart sCart2 1 addr0 none none "ORD-A" 1).1.orderItems := by
  have h := C7_snapshot_immutability sCart2 1 addr0 none none "ORD-A" 1 (by decide) ⟨1, 1⟩
    (by decide) (by decide) (by decide)
  exact ⟨h.1, h.2.1 ⟨1, 1, 2⟩ (by decide) ⟨1, "Widget", "SKU-A", 10, 5, true⟩ (by decide)⟩

/-- C8 — add-to-cart never mutates product stock: whatever the outcome,
the products table is untouched; on success the only writes are the
cart row (possibly created) and the created-or-incremented cart line. -/
theorem C8_add_to_cart_frame (s : DBState) (cid pid : Nat) (q : Int) :
    (CartService.add_to_cart s cid pid q).1.products = s.products ∧
    ((CartService.add_to_cart s cid pid q).2 = .ok () →
      (CartService.add_to_cart s cid pid q).1.orders = s.orders ∧
      (CartService.add_to_cart s cid pid q).1.orderItems = s.orderItems ∧
      ((CartService.add_to_cart s cid pid q).1.cartItems =
          update_first_cart_item_quantity s.cartItems
            (CartRepository.get_or_create s cid).2.id pid q ∨
        (CartService.add_to_cart s cid pid q).1.cartItems =
          s.cartItems ++ [⟨(CartRepository.get_or_create s cid).2.id, pid, q⟩])) :=
  ⟨add_to_cart_products s cid pid q, fun h => add_to_cart_ok_effect s cid pid q h⟩

/-- C8 witness: adding one more unit of product 2 to the demo cart
succeeds and leaves every product row exactly as before. -/
theorem C8_add_to_cart_frame_witness :
    (CartService.add_to_cart sCart2 1 2 1).2 = .ok () ∧
    (CartService.add_to_cart sCart2 1 2 1).1.products = sCart2.products ∧
    ((CartService.add_to_cart sCart2 1 2 1).1.cartItems =
        update_first_cart_item_quantity sCart2.cartItems
          (CartRepository.get_or_create sCart2 1).2.id 2 1 ∨
      (CartService.add_to_cart sCart2 1 2 1).1.cartItems =
        sCart2.cartItems ++ [⟨(CartRepository.get_or_create sCart2 1).2.id, 2, 1⟩]) := by
  have hok : (CartService.add_to_cart sCart2 1 2 1).2 = .ok () := by decide
  have h := C8_add_to_cart_frame sCart2 1 2 1
  exact ⟨hok, h.1, (h.2 hok).2.2⟩

/-- C6 — status timestamps are written at most once:
`OrderRepository.update_status` stamps confirmed_at/shipped_at/
delivered_at only when the order's field is still unset, never
overwrites an existing value, and touches each field only for its own
status value. -/
theorem C6_status_timestamps (o : Order) (status : String) (now : Nat) :
    (∀ t, o.confirmed_at = some t →
      (OrderRepository.apply_status o status now).confirmed_at = some t) ∧
    (∀ t, o.shipped_at = some t →
      (OrderRepository.apply_status o status now).shipped_at = some t) ∧
    (∀ t, o.delivered_at = some t →
      (OrderRepository.apply_status o status now).delivered_at = some t) ∧
    (o.confirmed_at = none →
      (OrderRepository.apply_status o "confirmed" now).confirmed_at = some now) ∧
    (o.shipped_at = none →
      (OrderRepository.apply_status o "shipped" now).shipped_at = some now) ∧
    (o.delivered_at = none →
      (OrderRepository.apply_status o "delivered" now).delivered_at = some now) ∧
    (status ≠ "confirmed" →
      (OrderRepository.apply_status o status now).confirmed_at = o.confirmed_at) ∧
    (status ≠ "shipped" →
      (OrderRepository.apply_status o status now).shipped_at = o.shipped_at) ∧
    (status ≠ "delivered" →
      (OrderRepository.apply_status o status now).delivered_at = o.delivered_at) := by
  unfold OrderRepository.apply_status
  dsimp only
  refine ⟨?_, ?_, ?_, ?_, ?_, ?_, ?_, ?_, ?_⟩
  · intro t ht; split_ifs with h1 h2 h3 <;> simp_all
  · intro t ht; split_ifs with h1 h2 h3 <;> simp_all
  · intro t ht; split_ifs with h1 h2 h3 <;> simp_all
  · intro hn; split_ifs with h1 h2 h3 <;> simp_all
  · intro hn; split_ifs with h1 h2 h3 <;> simp_all
  · intro hn; split_ifs with h1 h2 h3 <;> simp_all
  · intro hne; split_ifs with h1 h2 h3 <;> simp_all
  · intro hne; split_ifs with h1 h2 h3 <;> simp_all
  · intro hne; split_ifs with h1 h2 h3 <;> simp_all

/-- C6 witness: re-confirming an order confirmed at instant 5 keeps
confirmed_at = 5; confirming a pending order stamps the current
instant. -/
theorem C6_status_timestamps_witness :
    (OrderRepository.apply_status orderStamped "confirmed" 9).confirmed_at = some 5 ∧
    (OrderRepository.apply_status (orderWith "pending" "paid") "confirmed" 9).confirmed_at =
      some 9 :=
  ⟨(C6_status_timestamps orderStamped "confirmed" 9).1 5 (by decide),
   (C6_status_timestamps (orderWith "pending" "paid") "confirmed" 9).2.2.2.1 (by decide)⟩

/-- C10 — `update_order_status` enforces no transition table: any valid
target status is accepted regardless of the current status, and a
transition out of cancelled/refunded into an active status leaves every
product's stock untouched (restored stock is never re-decremented). -/
theorem C10_no_transition_table (s : DBState) (oid : Nat) (status : String) (now : Nat)
    (o : Order) (hvalid : OrderStatus.is_valid status = true)
    (ho : OrderRepository.get_by_id s oid = some o)
    (hpres : ∀ oi ∈ order_items_of s o,
      (ProductRepository.get_by_id s oi.product_id).isSome) :
    (OrderService.update_order_status s oid status now).2 =
      .ok (OrderRepository.apply_status o status now) ∧
    ((o.status = "cancelled" ∨ o.status = "refunded") → status ∈ OrderStatus.active_statuses →
      (OrderService.update_order_status s oid status now).1.products = s.products) := by
  have hs := update_order_status_spec s oid status now o hvalid ho hpres
  constructor
  · rw [hs]
  · intro hterm hact
    have hne1 : ¬ (status = "cancelled" ∧ ¬ (o.status = "cancelled" ∨ o.status = "refunded")) := by
      rintro ⟨-, h2⟩; exact h2 hterm
    have hne2 : ¬ (status = "refunded" ∧ ¬ o.status = "cancelled") := by
      rintro ⟨h1, -⟩
      rw [h1] at hact
      simp [OrderStatus.active_statuses] at hact
    rw [hs, if_neg hne2, if_neg hne1]
    rfl

/-- C10 witness: a cancelled order can be pushed back to pending, and the
restored stock is not re-decremented. -/
theorem C10_no_transition_table_witness :
    (OrderService.update_order_status (sOrder "cancelled") 1 "pending" 3).2 =
      .ok (OrderRepository.apply_status (orderWith "cancelled" "paid") "pending" 3) ∧
    (OrderService.update_order_status (sOrder "cancelled") 1 "pending" 3).1.products =
      (sOrder "cancelled").products := by
  have h := C10_no_transition_table (sOrder "cancelled") 1 "pending" 3
    (orderWith "cancelled" "paid") (by decide) (by decide) (by decide)
  exact ⟨h.1, h.2 (Or.inl rfl) (by decide)⟩

/-- C2 counterexample: the claim says refunding an already-refunded order
must be a no-op on stock, but the refund guard only excludes
already-cancelled orders: re-refunding restores the line quantity again
(stock 5 becomes 7 for the qty-2 line). -/
theorem C2_counterexample :
    (OrderService.update_order_status (sOrder "refunded") 1 "refunded" 7).2 =
      .ok (OrderRepository.apply_status (orderWith "refunded" "paid") "refunded" 7) ∧
    (OrderService.update_order_status (sOrder "refunded") 1 "refunded" 7).1.products =
      [⟨1, "Widget", "SKU-A", 10, 7, true⟩] := by
  decide

/-- C2 amended — stock restoration on cancel/refund: a status update into
cancelled from a state that is not already cancelled/refunded, or into
refunded from any state other than cancelled (including from refunded
itself), adds each order line's quantity back to its product's stock,
once per call; every other combination leaves every product row
unchanged.  In particular refunding an already-refunded order restores
stock a second time. -/
theorem C2_amended (s : DBState) (oid : Nat) (status : String) (now : Nat) (o : Order)
    (hvalid : OrderStatus.is_valid status = true)
    (ho : OrderRepository.get_by_id s oid = some o)
    (hnodup : ((order_items_of s o).map (fun oi => oi.product_id)).Nodup)
    (hpres : ∀ oi ∈ order_items_of s o,
      (ProductRepository.get_by_id s oi.product_id).isSome) :
    (((status = "cancelled" ∧ ¬ (o.status = "cancelled" ∨ o.status = "refunded")) ∨
      (status = "refunded" ∧ ¬ o.status = "cancelled")) →
      ∀ oi ∈ order_items_of s o, ∀ p,
        s.products.find? (fun q => q.id = oi.product_id) = some p →
        (OrderService.update_order_status s oid status now).1.products.find?
            (fun q => q.id = oi.product_id) =
          some { p with stock_quantity := p.stock_quantity + oi.quantity }) ∧
    (¬ ((status = "cancelled" ∧ ¬ (o.status = "cancelled" ∨ o.status = "refunded")) ∨
        (status = "refunded" ∧ ¬ o.status = "cancelled")) →
      (OrderService.update_order_status s oid status now).1.products = s.products) := by
  have hs := update_order_status_spec s oid status now o hvalid ho hpres
  constructor
  · intro hcond oi hoi p hp
    rcases hcond with c1 | c2
    · have c2f : ¬ (status = "refunded" ∧ ¬ o.status = "cancelled") := by
        rintro ⟨h, -⟩
        rw [c1.1] at h
        simp at h
      rw [hs, if_neg c2f, if_pos c1]
      exact restore_items_stock_incr s _ hnodup hpres oi hoi p hp
    · have c1f : ¬ (status = "cancelled" ∧ ¬ (o.status = "cancelled" ∨ o.status = "refunded")) := by
        rintro ⟨h, -⟩
        rw [c2.1] at h
        simp at h
      rw [hs, if_pos c2, if_neg c1f]
      exact restore_items_stock_incr s _ hnodup hpres oi hoi p hp
  · intro hncond
    rw [hs, if_neg (fun h => hncond (Or.inr h)), if_neg (fun h => hncond (Or.inl h))]
    rfl

/-- C2 amended witness: cancelling a pending order restores the qty-2
line, stock 5 becomes 7. -/
theorem C2_amended_witness :
    (OrderService.update_order_status (sOrder "pending") 1 "cancelled" 7).1.products.find?
        (fun q => q.id = 1) = some ⟨1, "Widget", "SKU-A", 10, 7, true⟩ := by
  have h := C2_amended (sOrder "pending") 1 "cancelled" 7 (orderWith "pending" "paid")
    (by decide) (by decide) (by decide) (by decide)
  have h2 := h.1 (Or.inl ⟨rfl, by decide⟩) ⟨1, 1, "Widget", "SKU-A", 10, 2⟩ (by decide)
    prodA (by decide)
  simpa [prodA] using h2

/-- C3 counterexample: the adjustStock primitive in add mode applies a
negative delta with no floor check, driving stock 0 to -1 with a
successful outcome; and the repository-level stock write used by
checkout and restore (`ProductRepository.update_stock`) is a direct
`+=` with no floor-at-zero check at all (stock 0 with delta -5 yields
-5). -/
theorem C3_counterexample :
    (ProductService.update_stock sStock0 1 (-1) "add").2 = .ok () ∧
    (ProductService.update_stock sStock0 1 (-1) "add").1.products =
      [⟨1, "Widget", "SKU-A", 10, -1, true⟩] ∧
    (ProductRepository.update_stock sStock0 1 (-5)).products =
      [⟨1, "Widget", "SKU-A", 10, -5, true⟩] := by
  decide

/-- C3 amended — stock non-negativity: for every sequence of addItem,
createOrderFromCart and adjustStock calls in which every add-mode
adjustStock delta is non-negative, starting from a state with
non-negative stocks and the cart-line unique constraint intact, every
product's stock stays non-negative after every call.  (The subtract and
set modes carry their own floor checks; checkout's decrement relies on
its pre-validation, not on the primitive, and add-mode with a negative
delta breaks the invariant — see the counterexample.) -/
theorem C3_amended (s : DBState) (ops : List Op) (hwf : cart_pairs_nodup s)
    (hinv : stock_nonneg s) (hops : ∀ op ∈ ops, op_add_nonneg op) :
    stock_nonneg (ops.foldl apply_op s) := by
  induction ops generalizing s with
  | nil => simpa using hinv
  | cons op rest ih =>
    rw [List.foldl_cons]
    refine ih (apply_op s op) ?_ ?_ (fun x hx => hops x (List.mem_cons_of_mem _ hx))
    · cases op with
      | addItem cid pid q => exact add_to_cart_pairs s cid pid q hwf
      | checkout cid a pm n onum oid => exact create_order_pairs s cid a pm n onum oid hwf
      | adjustStock pid c operation =>
        unfold cart_pairs_nodup
        rw [show (apply_op s (Op.adjustStock pid c operation)).cartItems = s.cartItems from
          (update_stock_service_frames s pid c operation).2.1]
        exact hwf
    · cases op with
      | addItem cid pid q =>
        intro p hp
        rw [show (apply_op s (Op.addItem cid pid q)).products = s.products from
          add_to_cart_products s cid pid q] at hp
        exact hinv p hp
      | checkout cid a pm n onum oid => exact create_order_inv s cid a pm n onum oid hwf hinv
      | adjustStock pid c operation =>
        exact update_stock_service_inv s pid c operation
          (hops _ (List.mem_cons_self _ _)) hinv

/-- C3 amended witness: an add-to-cart, a non-negative add-mode restock,
a floored subtract, and a checkout, run in sequence, keep all stocks
non-negative. -/
theorem C3_amended_witness :
    stock_nonneg (List.foldl apply_op sCart2
      [Op.addItem 1 1 1, Op.adjustStock 1 5 "add", Op.adjustStock 2 3 "subtract",
       Op.checkout 1 addr0 none none "ORD-S" 1]) := by
  refine C3_amended sCart2 _ (by unfold cart_pairs_nodup; decide)
    (by unfold stock_nonneg; decide) ?_
  intro op hop
  fin_cases hop <;> simp [op_add_nonneg]

/-- C1 counterexample: checkout is not atomic.  Under the commit-fault
model (each repository call commits on its own; here the first
OrderItem insert fails) the call raises after the empty-cart check, yet
the already-committed Order row persists — with no OrderItems, no stock
change and the cart intact — refuting "no Order row exists" after a
post-step-1 failure. -/
theorem C1_counterexample :
    (OrderService.create_order_from_cart_fault 1 sCart2 1 addr0 none none "ORD-C" 1).2 =
      Except.error "DatabaseError" ∧
    (OrderService.create_order_from_cart_fault 1 sCart2 1 addr0 none none
      "ORD-C" 1).1.orders.length = 1 ∧
    (OrderService.create_order_from_cart_fault 1 sCart2 1 addr0 none none
      "ORD-C" 1).1.orderItems = [] ∧
    (OrderService.create_order_from_cart_fault 1 sCart2 1 addr0 none none
      "ORD-C" 1).1.products = sCart2.products ∧
    (OrderService.create_order_from_cart_fault 1 sCart2 1 addr0 none none
      "ORD-C" 1).1.cartItems = sCart2.cartItems := by
  decide

/-- C1 amended — rollback holds for the code's own failure paths: every
error `create_order_from_cart` raises itself (invalid payment method,
empty cart, insufficient stock, dangling product reference) occurs
before any write, so the state is exactly the pre-call state: no Order,
no OrderItems, no stock change, cart untouched.  (Atomicity against
mid-operation persistence failures does not hold — see the
counterexample — because every repository call commits separately.) -/
theorem C1_amended (s : DBState) (cid : Nat) (addr : ShippingAddress)
    (pm notes : Option String) (onum : String) (oid : Nat) (e : String)
    (h : (OrderService.create_order_from_cart s cid addr pm notes onum oid).2 = .error e) :
    (OrderService.create_order_from_cart s cid addr pm notes onum oid).1 = s := by
  revert h
  simp only [OrderService.create_order_from_cart]
  split
  · intro _; rfl
  split
  · intro _; rfl
  split
  · intro _; rfl
  split
  · intro _; rfl
  split
  · intro _; rfl
  rename_i x1 cart hcart hlen x2 u hval x3 sub hsub
  have hval' : OrderService.validate_items_stock s (cart_items_of s cart) = .ok () := by
    cases u; exact hval
  have hpres : ∀ ci ∈ cart_items_of s cart,
      (ProductRepository.get_by_id
        { s with orders := s.orders ++
            [OrderService.checkout_order cid addr pm notes onum oid sub] }
        ci.product_id).isSome := by
    intro x hx
    obtain ⟨px, hpx, _⟩ := validate_items_stock_ok s _ hval' x hx
    show (s.products.find? (fun p => p.id = x.product_id)).isSome
    rw [ProductRepository.get_by_id] at hpx
    rw [hpx]; rfl
  have hr2 := (process_order_items_spec
    (OrderService.checkout_order cid addr pm notes onum oid sub).id
    { s with orders := s.orders ++ [OrderService.checkout_order cid addr pm notes onum oid sub] }
    (cart_items_of s cart) hpres).1
  split
  · intro hcontra; simp at hcontra
  · rename_i hr2f
    exact absurd hr2 hr2f

/-- C1 amended witness: an InsufficientStock failure at the
re-validation step leaves the database exactly as it was. -/
theorem C1_amended_witness :
    (OrderService.create_order_from_cart sShort 1 addr0 none none "ORD-F" 1).2 =
      Except.error "Insufficient stock for Widget" ∧
    (OrderService.create_order_from_cart sShort 1 addr0 none none "ORD-F" 1).1 = sShort := by
  have herr : (OrderService.create_order_from_cart sShort 1 addr0 none none "ORD-F" 1).2 =
      Except.error "Insufficient stock for Widget" := by decide
  exact ⟨herr, C1_amended sShort 1 addr0 none none "ORD-F" 1 _ herr⟩

/-- C5 counterexample: the mark-as-shipped endpoint is guarded only by
`@staff_required`, so a cashier drives a pending order straight to
status `shipped` with a 200 — refuting "a cashier succeeds only when the
target status is confirmed or processing, through every status-changing
staff endpoint". -/
theorem C5_counterexample :
    (OrderRoutes.mark_as_shipped_route "cashier" (sOrder "pending") 1 7).2 = HttpStatus.ok ∧
    ((OrderRoutes.mark_as_shipped_route "cashier" (sOrder "pending") 1 7).1.orders.map
      (fun o => o.status)) = ["shipped"] := by
  decide

/-- C5 amended — role gating of status changes: on the status-update
endpoint a cashier is rejected as Forbidden for every valid target other
than confirmed/processing, and a manager exactly for the target
refunded; only admins pass the gates for order-status refunded and
payment-status refunded, and the refund endpoint itself is admin-only —
but the mark-as-shipped endpoint accepts every staff role, including
cashiers, for the target shipped. -/
theorem C5_amended :
    (∀ (s : DBState) (oid : Nat) (status : String) (now : Nat),
      OrderStatus.is_valid status = true →
      ¬ (status = "confirmed" ∨ status = "processing") →
      (OrderRoutes.update_order_status_route "cashier" s oid (some status) now).2 =
        HttpStatus.forbidden) ∧
    (∀ (s : DBState) (oid : Nat) (status : String) (now : Nat),
      OrderStatus.is_valid status = true →
      ((OrderRoutes.update_order_status_route "manager" s oid (some status) now).2 =
          HttpStatus.forbidden ↔ status = "refunded")) ∧
    (∀ (role : String) (s : DBState) (oid now : Nat), role ∈ UserRole.staff_roles →
      ¬ (OrderRoutes.mark_as_shipped_route role s oid now).2 = HttpStatus.forbidden) ∧
    (∀ (role : String) (s : DBState) (oid : Nat), role ∈ UserRole.staff_roles →
      ¬ role = "admin" →
      (OrderRoutes.update_payment_status_route role s oid (some "refunded")).2 =
        HttpStatus.forbidden) ∧
    (∀ (role : String) (s : DBState) (oid : Nat) (notes : String) (now : Nat),
      ¬ role = "admin" →
      (OrderRoutes.process_refund_route role s oid notes now).2 = HttpStatus.forbidden) ∧
    (∀ (s : DBState) (oid : Nat) (now : Nat),
      ¬ (OrderRoutes.update_order_status_route "admin" s oid (some "refunded") now).2 =
        HttpStatus.forbidden) := by
  refine ⟨?_, ?_, ?_, ?_, ?_, ?_⟩
  · intro s oid status now hvalid hnot
    have hne : ¬ status = "" := by
      intro he
      rw [he] at hvalid
      simp [OrderStatus.is_valid, OrderStatus.values] at hvalid
    simp only [OrderRoutes.update_order_status_route]
    rw [if_neg (by simp [UserRole.staff_roles])]
    rw [if_neg hne, if_neg (by simp [hvalid])]
    rw [if_pos (⟨trivial, hnot⟩ : _ ∧ _)]
  · intro s oid status now hvalid
    have hne : ¬ status = "" := by
      intro he
      rw [he] at hvalid
      simp [OrderStatus.is_valid, OrderStatus.values] at hvalid
    constructor
    · intro hf
      by_contra hrne
      simp only [OrderRoutes.update_order_status_route] at hf
      rw [if_neg (by simp [UserRole.staff_roles])] at hf
      rw [if_neg hne, if_neg (by simp [hvalid])] at hf
      rw [if_neg (by rintro ⟨hc, -⟩; simp at hc)] at hf
      rw [if_neg (by rintro ⟨-, hc⟩; exact hrne hc)] at hf
      cases hserv : (OrderService.update_order_status s oid status now).2 with
      | ok o => rw [hserv] at hf; simp at hf
      | error e => rw [hserv] at hf; simp at hf
    · intro hr
      simp only [OrderRoutes.update_order_status_route]
      rw [if_neg (by simp [UserRole.staff_roles])]
      rw [if_neg hne, if_neg (by simp [hvalid])]
      rw [if_neg (by rintro ⟨hc, -⟩; simp at hc)]
      rw [if_pos (⟨trivial, hr⟩ : _ ∧ _)]
  · intro role s oid now hrole
    simp only [OrderRoutes.mark_as_shipped_route]
    rw [if_neg (not_not_intro hrole)]
    cases hserv : (OrderService.update_order_status s oid "shipped" now).2 with
    | ok o => simp
    | error e => simp
  · intro role s oid hrole hne
    simp only [OrderRoutes.update_payment_status_route]
    rw [if_neg (not_not_intro hrole)]
    rw [if_neg (by simp), if_neg (by simp [PaymentStatus.is_valid, PaymentStatus.values])]
    rw [if_pos (⟨trivial, hne⟩ : _ ∧ _)]
  · intro role s oid notes now hne
    simp only [OrderRoutes.process_refund_route]
    rw [if_pos hne]
  · intro s oid now
    simp only [OrderRoutes.update_order_status_route]
    rw [if_neg (by simp [UserRole.staff_roles])]
    rw [if_neg (by simp), if_neg (by simp [OrderStatus.is_valid, OrderStatus.values])]
    rw [if_neg (by rintro ⟨hc, -⟩; simp at hc)]
    rw [if_neg (by rintro ⟨hc, -⟩; simp at hc)]
    cases hserv : (OrderService.update_order_status s oid "refunded" now).2 with
    | ok o => simp
    | error e => simp

/-- C5 amended witness: a cashier asking for `shipped` on the
status-update endpoint is rejected; a manager asking for `refunded` is
rejected; a cashier marking as shipped via the ship endpoint is not
rejected; a manager is rejected for payment-status refunded and for the
refund endpoint; an admin is not rejected for refunded. -/
theorem C5_amended_witness :
    (OrderRoutes.update_order_status_route "cashier" (sOrder "pending") 1 (some "shipped")
      7).2 = HttpStatus.forbidden ∧
    (OrderRoutes.update_order_status_route "manager" (sOrder "pending") 1 (some "refunded")
      7).2 = HttpStatus.forbidden ∧
    ¬ (OrderRoutes.mark_as_shipped_route "cashier" (sOrder "pending") 1 7).2 =
      HttpStatus.forbidden ∧
    (OrderRoutes.update_payment_status_route "manager" (sOrder "pending") 1
      (some "refunded")).2 = HttpStatus.forbidden ∧
    (OrderRoutes.process_refund_route "manager" (sOrder "pending") 1 "n" 7).2 =
      HttpStatus.forbidden ∧
    ¬ (OrderRoutes.update_order_status_route "admin" (sOrder "pending") 1 (some "refunded")
      7).2 = HttpStatus.forbidden := by
  obtain ⟨h1, h2, h3, h4, h5, h6⟩ := C5_amended
  exact ⟨h1 (sOrder "pending") 1 "shipped" 7 (by decide) (by decide),
    (h2 (sOrder "pending") 1 "refunded" 7 (by decide)).mpr rfl,
    h3 "cashier" (sOrder "pending") 1 7 (by decide),
    h4 "manager" (sOrder "pending") 1 (by decide) (by decide),
    h5 "manager" (sOrder "pending") 1 "n" 7 (by decide),
    h6 (sOrder "pending") 1 7⟩

end SuperBackend
